import Mathlib

/-!
Verification of the screenshot-processing pipeline of the private-assistant
repository: the mode-indexed prompt templates, the heuristic response parsers
of `ProcessingHelper.ts`, the OpenAI/Claude model adapters, and small state
models of the orchestration (adapter swapping, cancellation, event emission).

Free-form model text is embedded as `List Char`; the JavaScript regular
expressions of the source are embedded as hand-written scanners whose
behaviour matches the backtracking semantics of the concrete patterns used
(each simplification relies on an argument recorded next to the definition).
-/

namespace PrivateAssistant

abbrev Str := List Char

/-- JS `\w` character class: ASCII letters, digits, underscore. -/
def isWordChar (c : Char) : Bool := c.isAlphanum || c = '_'

/-- JS `\s` character class (the whitespace forms relevant to model text). -/
def isSpaceChar (c : Char) : Bool :=
  c = ' ' || c = '\t' || c = '\n' || c = '\r' || c = '\x0b' || c = '\x0c'

/-- JS `String.prototype.trim`: strip whitespace from both ends. -/
def trimChars (s : Str) : Str :=
  ((s.dropWhile isSpaceChar).reverse.dropWhile isSpaceChar).reverse

/-- Case-sensitive literal prefix test (first argument is the pattern). -/
def startsWithLit : Str → Str → Bool
  | [], _ => true
  | _ :: _, [] => false
  | p :: ps, c :: cs => p = c && startsWithLit ps cs

/-- Case-insensitive literal prefix test, as performed by a `/i` regex on
an alphabetic literal. -/
def startsWithCI : Str → Str → Bool
  | [], _ => true
  | _ :: _, [] => false
  | p :: ps, c :: cs => p.toLower = c.toLower && startsWithCI ps cs

/-- JS `String.prototype.includes`: case-sensitive substring test. -/
def containsSub (pat : Str) : Str → Bool
  | [] => startsWithLit pat []
  | c :: r => startsWithLit pat (c :: r) || containsSub pat r

/-- JS `String.prototype.replace` with a literal pattern: remove the first
occurrence of `pat` from `s` (no occurrence leaves `s` unchanged). -/
def removeFirst (pat : Str) : Str → Str
  | [] => []
  | c :: r =>
    if startsWithLit pat (c :: r) && pat ≠ [] then (c :: r).drop pat.length
    else c :: removeFirst pat r

/-- JS `Array.prototype.join("\n")` over string lists. -/
def joinNl (xs : List Str) : Str := List.intercalate ['\n'] xs

/-- JS `String.prototype.split('\n')`. -/
def splitOnNl : Str → List Str
  | [] => [[]]
  | c :: r =>
    if c = '\n' then [] :: splitOnNl r
    else
      match splitOnNl r with
      | [] => [[c]]
      | h :: t => (c :: h) :: t

/-- JS `String.prototype.split('\n\n')` (left-to-right, non-overlapping). -/
def splitOnNlNl : Str → List Str
  | [] => [[]]
  | '\n' :: '\n' :: r => [] :: splitOnNlNl r
  | c :: r =>
    match splitOnNlNl r with
    | [] => [[c]]
    | h :: t => (c :: h) :: t

theorem length_dropWhile_le' (p : Char → Bool) (l : Str) :
    (l.dropWhile p).length ≤ l.length := by
  induction l with
  | nil => simp [List.dropWhile]
  | cons c r ih =>
    simp only [List.dropWhile]
    cases p c
    · simp
    · simpa using Nat.le_succ_of_le ih

theorem startsWithLit_append (p x : Str) : startsWithLit p (p ++ x) = true := by
  induction p with
  | nil => simp [startsWithLit]
  | cons c r ih => simp [startsWithLit, ih]

theorem containsSub_of_startsWithLit (p : Str) :
    ∀ s : Str, startsWithLit p s = true → containsSub p s = true := by
  intro s h
  cases s with
  | nil => simpa [containsSub] using h
  | cons c r => simp [containsSub, h]

theorem containsSub_cons (p : Str) (c : Char) (r : Str)
    (h : containsSub p r = true) : containsSub p (c :: r) = true := by
  simp [containsSub, h]

/-! ## Fenced code blocks

The source extracts code with regexes of the shape
`/` ``` `(?:LANG)?\s*([\s\S]*?)` ``` `/`.  The lazy group can only end at an
occurrence of the closing fence, the optional language tag and the greedy
whitespace cannot contain a backtick, and the engine advances the start
position one character at a time on failure; so the match is faithfully
computed by trying, at each suffix, to read an opening fence, skip the
variant-specific prefix, and cut the group at the next fence occurrence. -/

def startsWithFence (l : Str) : Bool := startsWithLit "```".data l

/-- Characters before the next ` ``` ` occurrence; `none` if there is none. -/
def splitAtFence : Str → Option Str
  | [] => none
  | c :: r =>
    if startsWithFence (c :: r) then some []
    else (splitAtFence r).map (fun g => c :: g)

/-- Generic first-fenced-block extractor; `skip` consumes the optional
language tag and any whitespace the concrete regex allows after it. -/
def fenceMatchWith (skip : Str → Str) : Str → Option Str
  | [] => none
  | c :: r =>
    if startsWithFence (c :: r) then
      match splitAtFence (skip ((c :: r).drop 3)) with
      | some g => some g
      | none => fenceMatchWith skip r
    else fenceMatchWith skip r

/-- The fence regex of `processCodingSolution`: optional `\w+` language tag
and greedy whitespace after the opening fence. -/
def codingFenceMatch : Str → Option Str :=
  fenceMatchWith (fun l => (l.dropWhile isWordChar).dropWhile isSpaceChar)

/-- The `(?:jsx|tsx|javascript|js|react)?` alternation of the react code
regex: the first alternative that matches literally is committed (the rest of
the pattern succeeds or fails independently of the chosen alternative). -/
def reactLangSkip (l : Str) : Str :=
  if startsWithLit "jsx".data l then l.drop 3
  else if startsWithLit "tsx".data l then l.drop 3
  else if startsWithLit "javascript".data l then l.drop 10
  else if startsWithLit "js".data l then l.drop 2
  else if startsWithLit "react".data l then l.drop 5
  else l

/-- The fence regex of `processReactSolution`: an explicit language-tag
alternation and greedy whitespace after the opening fence. -/
def reactFenceMatch : Str → Option Str :=
  fenceMatchWith (fun l => (reactLangSkip l).dropWhile isSpaceChar)

/-- The fence regex of `processSQLSolution`: an optional `sql` tag and
greedy whitespace after the opening fence. -/
def sqlFenceMatch : Str → Option Str :=
  fenceMatchWith
    (fun l => (if startsWithLit "sql".data l then l.drop 3 else l).dropWhile isSpaceChar)

/-- The fence regex of `processExtraScreenshotsHelper`: an optional ASCII
letter run, with no whitespace skipping after the language tag. -/
def debugFenceMatch : Str → Option Str :=
  fenceMatchWith (fun l => l.dropWhile Char.isAlpha)

/-! ## Bullet / numbered item extraction

`processCodingSolution` and friends collect bullet items with the global
regex whose body is: an anchor (start of text or a newline), greedy `\s*`,
a marker (one of `-` `*` `•`, or digits followed by a dot), greedy `\s*`,
then the rest of the line as the captured text.  Each match is then stripped
with an anchored replace of the same whitespace-marker-whitespace prefix —
which always succeeds because `\s*` also consumes the anchor newline — so
the scanner below directly returns the rest-of-line content of each match.
`processExtraScreenshotsHelper` uses a space-only variant whose strip can
fail; that variant is modelled separately further below. -/

/-- The bullet marker alternation: returns the marker text and the rest. -/
def parseMarker : Str → Option (Str × Str)
  | '-' :: r => some (['-'], r)
  | '*' :: r => some (['*'], r)
  | '•' :: r => some (['•'], r)
  | l =>
    if l.takeWhile Char.isDigit = [] then none
    else
      match l.drop (l.takeWhile Char.isDigit).length with
      | '.' :: r => some (l.takeWhile Char.isDigit ++ ['.'], r)
      | _ => none

theorem parseMarker_length_lt (l mk r : Str) (h : parseMarker l = some (mk, r)) :
    r.length < l.length := by
  unfold parseMarker at h
  split at h
  · simp only [Option.some.injEq, Prod.mk.injEq] at h
    obtain ⟨h1, h2⟩ := h
    subst h2; simp
  · simp only [Option.some.injEq, Prod.mk.injEq] at h
    obtain ⟨h1, h2⟩ := h
    subst h2; simp
  · simp only [Option.some.injEq, Prod.mk.injEq] at h
    obtain ⟨h1, h2⟩ := h
    subst h2; simp
  · split at h
    · exact absurd h (by simp)
    · split at h
      · rename_i heq
        simp only [Option.some.injEq, Prod.mk.injEq] at h
        obtain ⟨h1, h2⟩ := h
        subst h2
        have hlen := congrArg List.length heq
        simp [List.length_drop] at hlen
        omega
      · exact absurd h (by simp)

/-- One attempted bullet match with the anchor already consumed (the `\s*`
variant): greedy whitespace, marker, greedy whitespace, rest of line.
Returns the stripped item text and the remainder of the input (which begins
at the newline terminating the matched line, where the next search resumes). -/
def wsBulletTryAt (l : Str) : Option (Str × Str) :=
  match parseMarker (l.dropWhile isSpaceChar) with
  | none => none
  | some (_, l2) =>
    let l3 := l2.dropWhile isSpaceChar
    let item := l3.takeWhile (fun c => c ≠ '\n')
    some (item, l3.drop item.length)

theorem wsBulletTryAt_length_le (l it rest : Str)
    (h : wsBulletTryAt l = some (it, rest)) : rest.length ≤ l.length := by
  unfold wsBulletTryAt at h
  split at h
  · exact absurd h (by simp)
  · rename_i mk l2 heq
    simp only [Option.some.injEq, Prod.mk.injEq] at h
    obtain ⟨h1, h2⟩ := h
    subst h2
    have hm := parseMarker_length_lt (l.dropWhile isSpaceChar) mk l2 heq
    have hd := length_dropWhile_le' isSpaceChar l
    have hd2 := length_dropWhile_le' isSpaceChar l2
    have := List.length_drop
      ((l2.dropWhile isSpaceChar).takeWhile (fun c => c ≠ '\n')).length
      (l2.dropWhile isSpaceChar)
    omega

/-- Scan for further bullet matches, each anchored at a newline.  The scan
is driven by a fuel argument so that it is structurally recursive and
computes by kernel reduction; every step consumes at least one character
(`wsBulletTryAt_length_le`), so a fuel of one more than the input length is
always sufficient. -/
def wsBulletScanF : Nat → Str → List Str
  | 0, _ => []
  | fuel + 1, l =>
    match l with
    | [] => []
    | c :: r =>
      if c = '\n' then
        match wsBulletTryAt r with
        | some (item, rest) => item :: wsBulletScanF fuel rest
        | none => wsBulletScanF fuel r
      else wsBulletScanF fuel r

/-- All items of the whitespace-variant global bullet regex, in order.  The
first attempt is anchored at the start of the text; later ones at newlines. -/
def bulletItems (s : Str) : List Str :=
  match wsBulletTryAt s with
  | some (item, rest) => item :: wsBulletScanF (s.length + 1) rest
  | none => wsBulletScanF (s.length + 1) s

/-! ## Narrative sections

The section regexes all have the shape: a case-insensitive alternation of
start labels, a lazily captured body, and an end alternation (a set of
case-insensitive literals, or the end of the text).  Since the overall match
succeeds at every start-label occurrence, the leftmost occurrence wins and
the lazy body runs to the first end-label occurrence (or the end). -/

/-- Try the start labels in order as case-insensitive literals at this
position; on success return the remainder after the label. -/
def matchLabelsAt (labels : List Str) (l : Str) : Option Str :=
  match labels with
  | [] => none
  | lb :: rest =>
    if startsWithCI lb l then some (l.drop lb.length) else matchLabelsAt rest l

/-- Leftmost occurrence of any of the labels; remainder after it. -/
def scanForLabels (labels : List Str) : Str → Option Str
  | [] => none
  | c :: r =>
    match matchLabelsAt labels (c :: r) with
    | some rest => some rest
    | none => scanForLabels labels r

/-- The lazily captured body: everything before the first occurrence of an
end label (everything, if none occurs). -/
def takeUntilLabels (ends : List Str) : Str → Str
  | [] => []
  | c :: r =>
    if (matchLabelsAt ends (c :: r)).isSome then []
    else c :: takeUntilLabels ends r

def sectionExtract (starts ends : List Str) (s : Str) : Option Str :=
  (scanForLabels starts s).map (takeUntilLabels ends)

/-- Variant for start patterns of the form `LABEL[^:]*:` — after the literal
label, skip to and past the next colon; if no colon follows, the engine
moves on to the next occurrence of the label. -/
def skipPastColon : Str → Option Str
  | [] => none
  | ':' :: r => some r
  | _ :: r => skipPastColon r

def scanLabelColon (label : Str) : Str → Option Str
  | [] => none
  | c :: r =>
    if startsWithCI label (c :: r) then
      match skipPastColon ((c :: r).drop label.length) with
      | some rest => some rest
      | none => scanLabelColon label r
    else scanLabelColon label r

def sectionExtractColon (label : Str) (ends : List Str) (s : Str) : Option Str :=
  (scanLabelColon label s).map (takeUntilLabels ends)

/-- The recurring `bullet items if any, otherwise split lines` shape used
for thoughts/components/structure/features/steps sections. -/
def sectionList (g : Str) : List Str :=
  let bulletPoints := bulletItems g
  if bulletPoints ≠ [] then (bulletPoints.map trimChars).filter (fun x => x != [])
  else ((splitOnNl g).map trimChars).filter (fun x => x != [])

/-- Paragraph splitting used by the SQL and certification explanation
sections: split on blank lines, drop empty pieces, trim each piece. -/
def paragraphList (g : Str) : List Str :=
  ((splitOnNlNl g).filter (fun x => x != [])).map trimChars

/-! ## Debug-pass bullet items (space-only variant)

`processExtraScreenshotsHelper` matches bullets with: anchor, greedy run of
spaces, marker, one-or-more spaces, then one-or-more non-newline characters.
When the line ends in spaces right after the marker, the one-or-more-spaces
part backs off by one so the final space becomes the captured content; the
match text is unchanged by that backtracking.  The match list keeps the full
matched text (including the anchor newline), exactly as JS `match` with the
global flag returns it. -/

/-- One attempted debug bullet match with the anchor consumed.  Returns the
matched text without its anchor, and the remainder of the input. -/
def debugBulletTryAt (l : Str) : Option (Str × Str) :=
  match parseMarker (l.dropWhile (fun c => c = ' ')) with
  | none => none
  | some (mk, l2) =>
    let sp := l.takeWhile (fun c => c = ' ')
    let sp2 := l2.takeWhile (fun c => c = ' ')
    if sp2 = [] then none
    else
      let l3 := l2.drop sp2.length
      let content := l3.takeWhile (fun c => c ≠ '\n')
      if content ≠ [] then
        some (sp ++ mk ++ sp2 ++ content, l3.drop content.length)
      else if 2 ≤ sp2.length then some (sp ++ mk ++ sp2, l3)
      else none

theorem debugBulletTryAt_length_le (l m rest : Str)
    (h : debugBulletTryAt l = some (m, rest)) : rest.length ≤ l.length := by
  unfold debugBulletTryAt at h
  split at h
  · exact absurd h (by simp)
  · rename_i mk l2 heq
    have hm := parseMarker_length_lt (l.dropWhile (fun c => c = ' ')) mk l2 heq
    have hd := length_dropWhile_le' (fun c => c = ' ') l
    have hd2 : (l2.drop (l2.takeWhile (fun c => c = ' ')).length).length ≤ l2.length := by
      simp [List.length_drop]
    have hd3 := List.length_drop
      ((l2.drop (l2.takeWhile (fun c => c = ' ')).length).takeWhile
        (fun c => c ≠ '\n')).length
      (l2.drop (l2.takeWhile (fun c => c = ' ')).length)
    simp only [] at h
    split at h
    · exact absurd h (by simp)
    · split at h
      · simp only [Option.some.injEq, Prod.mk.injEq] at h
        obtain ⟨h1, h2⟩ := h
        subst h2
        omega
      · split at h
        · simp only [Option.some.injEq, Prod.mk.injEq] at h
          obtain ⟨h1, h2⟩ := h
          subst h2
          omega
        · exact absurd h (by simp)

/-- Scan for further debug bullet matches, each anchored at a newline; the
anchor newline is part of the returned match text.  Fueled for kernel
computability; every step consumes at least one character
(`debugBulletTryAt_length_le`), so one more than the input length is always
enough fuel. -/
def debugBulletScanF : Nat → Str → List Str
  | 0, _ => []
  | fuel + 1, l =>
    match l with
    | [] => []
    | c :: r =>
      if c = '\n' then
        match debugBulletTryAt r with
        | some (m, rest) => ('\n' :: m) :: debugBulletScanF fuel rest
        | none => debugBulletScanF fuel r
      else debugBulletScanF fuel r

/-- JS `debugContent.match(...)` for the space-only bullet regex: the list of
full match texts, or `[]` when the regex matches nowhere (JS returns null). -/
def debugBulletMatches (s : Str) : List Str :=
  match debugBulletTryAt s with
  | some (m, rest) => m :: debugBulletScanF (s.length + 1) rest
  | none => debugBulletScanF (s.length + 1) s

/-- The strip `replace` of the debug variant: anchored spaces, marker, then
one-or-more spaces.  It fails (returning the text unchanged) whenever the
match text begins with its anchor newline, because the space-only class
cannot consume the newline. -/
def stripDebugMarker (p : Str) : Str :=
  match parseMarker (p.dropWhile (fun c => c = ' ')) with
  | none => p
  | some (_, l2) =>
    if l2.takeWhile (fun c => c = ' ') = [] then p
    else l2.drop (l2.takeWhile (fun c => c = ' ')).length

/-- The `thoughts` list built by `processExtraScreenshotsHelper`: the first
five stripped-and-trimmed bullet matches, or the fixed fallback sentence. -/
def debugThoughts (s : Str) : List Str :=
  let bulletPoints := debugBulletMatches s
  if bulletPoints = [] then [ "Debug analysis based on your screenshots".data]
  else ((bulletPoints.map (fun p => trimChars (stripDebugMarker p))).take 5)

/-! ## Big-O notation tokens

The order-notation test and extraction both use the case-insensitive regex:
letter O, an opening parenthesis, one or more non-close-parenthesis
characters, and a closing parenthesis. -/

/-- The notation token when it starts at this position (the greedy interior
run is the characters before the next closing parenthesis, which must exist
and be non-empty). -/
def bigOAt (l : Str) : Option Str :=
  match l with
  | c :: '(' :: r =>
    if c.toLower = 'o' then
      if r.takeWhile (fun d => d ≠ ')') ≠ [] &&
         startsWithLit [')'] (r.dropWhile (fun d => d ≠ ')')) then
        some (c :: '(' :: (r.takeWhile (fun d => d ≠ ')') ++ [')']))
      else none
    else none
  | _ => none

/-- First big-O token occurring in the text (JS `match` with that regex). -/
def findBigO : Str → Option Str
  | [] => none
  | c :: r =>
    match bigOAt (c :: r) with
    | some t => some t
    | none => findBigO r

theorem startsWithLit_takeWhile_close (p : Char → Bool) (x : Char) :
    ∀ r : Str, startsWithLit [x] (r.dropWhile p) = true →
      startsWithLit (r.takeWhile p ++ [x]) r = true := by
  intro r
  induction r with
  | nil => intro h; simp [List.dropWhile, startsWithLit] at h
  | cons c r ih =>
    intro h
    cases hp : p c with
    | false =>
      rw [List.dropWhile_cons, hp] at h
      simp only [Bool.false_eq_true, if_false] at h
      rw [List.takeWhile_cons, hp]
      simpa using h
    | true =>
      rw [List.dropWhile_cons, hp] at h
      simp only [if_true] at h
      rw [List.takeWhile_cons, hp]
      simp only [if_true, List.cons_append, startsWithLit]
      simp [ih h]

theorem bigOAt_isSub (l t : Str) (h : bigOAt l = some t) :
    startsWithLit t l = true := by
  unfold bigOAt at h
  split at h
  · rename_i c r
    split at h
    · split at h
      · rename_i hc hbody
        simp only [Option.some.injEq] at h
        subst h
        simp only [Bool.and_eq_true] at hbody
        have key := startsWithLit_takeWhile_close (fun d => decide (d ≠ ')')) ')' r hbody.2
        simp only [startsWithLit]
        simpa using key
      · exact absurd h (by simp)
    · exact absurd h (by simp)
  · exact absurd h (by simp)

theorem findBigO_containsSub (s t : Str) (h : findBigO s = some t) :
    containsSub t s = true := by
  induction s with
  | nil => simp [findBigO] at h
  | cons c r ih =>
    unfold findBigO at h
    split at h
    · rename_i t' heq
      simp only [Option.some.injEq] at h
      subst h
      exact containsSub_of_startsWithLit _ _ (bigOAt_isSub _ _ heq)
    · exact containsSub_cons _ _ _ (ih h)

theorem findBigO_ne_nil (s t : Str) (h : findBigO s = some t) : s ≠ [] := by
  intro hs
  subst hs
  simp [findBigO] at h

/-! ## Complexity section matching

`processCodingSolution` locates complexity text with two regexes of the
shape: case-insensitive label, optional colon, greedy `\s*`, then a captured
first line (one or more non-newline characters) lazily extended by further
non-empty lines, all validated by a lookahead demanding a newline, optional
whitespace, and either the companion label (time variant: the space label;
space variant: any ASCII letter) or the end of the text.

Because the lookahead begins with a literal newline and the captured
characters exclude newlines, the capture can only end exactly at a newline;
so the lazy extension takes whole non-empty lines and stops at the first
newline boundary satisfying the lookahead.  The greedy `\s*` is tried from
its maximal width downwards (backing it off moves the capture start left
into whitespace, which can change the first captured line), and the optional
colon is tried consumed first.  On overall failure the engine retries at the
next occurrence of the label. -/

/-- Lookahead tail: optional whitespace, then the given case-insensitive
literal, or the end of the text. -/
def lookWsThenCI (target : Str) : Str → Bool
  | [] => true
  | c :: r =>
    if startsWithCI target (c :: r) then true
    else if isSpaceChar c then lookWsThenCI target r
    else false

/-- Lookahead of the time-complexity regex: newline, whitespace, then the
space-complexity label or the end. -/
def timeLook : Str → Bool
  | '\n' :: r => lookWsThenCI "space complexity".data r
  | _ => false

/-- Lookahead tail of the space-complexity regex: optional whitespace, then
an ASCII letter (the `A-Z` class under the ignore-case flag) or the end. -/
def lookWsThenLetter : Str → Bool
  | [] => true
  | c :: r =>
    if c.isAlpha then true
    else if isSpaceChar c then lookWsThenLetter r
    else false

def spaceLook : Str → Bool
  | '\n' :: r => lookWsThenLetter r
  | _ => false

/-- Lazily extend the captured lines until the lookahead holds at the
current boundary; each added line must be non-empty.  Fueled for kernel
computability: every step removes at least the boundary newline from the
remainder, so one more than the remainder length is always enough fuel. -/
def extendLinesF (look : Str → Bool) : Nat → Str → Str → Option Str
  | 0, acc, rest => if look rest then some acc else none
  | fuel + 1, acc, rest =>
    if look rest then some acc
    else
      match rest with
      | '\n' :: r =>
        if r.takeWhile (fun c => c ≠ '\n') = [] then none
        else
          extendLinesF look fuel (acc ++ '\n' :: r.takeWhile (fun c => c ≠ '\n'))
            (r.drop (r.takeWhile (fun c => c ≠ '\n')).length)
      | _ => none

/-- Capture starting at a fixed position: a non-empty first line, lazily
extended. -/
def linesGroup (look : Str → Bool) (l : Str) : Option Str :=
  if l.takeWhile (fun c => c ≠ '\n') = [] then none
  else
    extendLinesF look (l.length + 1) (l.takeWhile (fun c => c ≠ '\n'))
      (l.drop (l.takeWhile (fun c => c ≠ '\n')).length)

/-- Greedy `\s*` with backtracking: try the widths from `k` down to zero. -/
def groupWithWs (look : Str → Bool) (l : Str) : Nat → Option Str
  | 0 => linesGroup look l
  | k + 1 =>
    match linesGroup look (l.drop (k + 1)) with
    | some g => some g
    | none => groupWithWs look l k

def complexityGroup (look : Str → Bool) (l : Str) : Option Str :=
  groupWithWs look l (l.takeWhile isSpaceChar).length

/-- The optional colon: preferred consumed, backed off on failure. -/
def complexityAfterLabel (look : Str → Bool) (l : Str) : Option Str :=
  match l with
  | ':' :: r =>
    match complexityGroup look r with
    | some g => some g
    | none => complexityGroup look (':' :: r)
  | _ => complexityGroup look l

/-- Leftmost occurrence of the label from which the rest of the pattern
succeeds; the captured text. -/
def complexityMatch (label : Str) (look : Str → Bool) : Str → Option Str
  | [] => none
  | c :: r =>
    if startsWithCI label (c :: r) then
      match complexityAfterLabel look ((c :: r).drop label.length) with
      | some g => some g
      | none => complexityMatch label look r
    else complexityMatch label look r

def timeDefault : Str :=
  ( "O(n) - Linear time complexity because we only iterate through the array once. Each element is processed exactly one time, and the hashmap lookups are O(1) operations.").data

def spaceDefault : Str :=
  ( "O(n) - Linear space complexity because we store elements in the hashmap. In the worst case, we might need to store all elements before finding the solution pair.").data

/-- The post-processing applied to each complexity capture: keep the trimmed
text; if it has no big-O token, synthesize one in front; if it has one but
neither a hyphen nor the word `because`, insert a hyphen separator after the
token; with no capture (or an empty one) substitute the default. -/
def fixComplexity (dflt : Str) (m : Option Str) : Str :=
  match m with
  | none => dflt
  | some g =>
    if g = [] then dflt
    else
      if (findBigO (trimChars g)).isNone then
        "O(n) - ".data ++ trimChars g
      else if !(trimChars g).contains '-' &&
              !containsSub "because".data (trimChars g) then
        match findBigO (trimChars g) with
        | some nota =>
          nota ++ " - ".data ++ trimChars (removeFirst nota (trimChars g))
        | none => trimChars g
      else trimChars g

/-! ## Solution results and the mode-specific response parsers -/

/-- The common shape of the formatted responses built by the six
`process*Solution` methods; the mode-specific extra fields are kept as an
association list from field name to value. -/
structure SolutionData where
  code : Str
  thoughts : List Str
  time_complexity : Str
  space_complexity : Str
  extra : List (Str × Str) := []
deriving DecidableEq

/-- The `{ success, data }` / `{ success, error }` objects returned
throughout `ProcessingHelper`. -/
structure ProcResult where
  success : Bool
  data : Option SolutionData := none
  error : Option Str := none
deriving DecidableEq

/-- JS `s || dflt` on strings: the empty string is falsy. -/
def jsOrStr (s dflt : Str) : Str := if s = [] then dflt else s

def codingThoughtStarts : List Str :=
  [ "Thoughts:".data, "Key Insights:".data, "Reasoning:".data, "Approach:".data]

def processCodingSolution (responseContent : Str) : ProcResult :=
  let code := match codingFenceMatch responseContent with
    | some m => trimChars m
    | none => responseContent
  let thoughts := match sectionExtract codingThoughtStarts
      [ "Time complexity:".data] responseContent with
    | some g => if g ≠ [] then sectionList g else []
    | none => []
  let timeComplexity := fixComplexity timeDefault
    (complexityMatch "time complexity".data timeLook responseContent)
  let spaceComplexity := fixComplexity spaceDefault
    (complexityMatch "space complexity".data spaceLook responseContent)
  { success := true
  , data := some
      { code := code
      , thoughts := if 0 < thoughts.length then thoughts
          else [ "Solution approach based on efficiency and readability".data]
      , time_complexity := timeComplexity
      , space_complexity := spaceComplexity }
  , error := none }

def processSystemDesignSolution (responseContent : Str) : ProcResult :=
  let architecture := match sectionExtract
      [ "System Architecture:".data, "Architecture:".data, "High-level design:".data]
      [ "Key Components:".data, "Major Components:".data] responseContent with
    | some g => trimChars g
    | none => []
  let components := match sectionExtract
      [ "Key Components:".data, "Major Components:".data]
      [ "Data Model:".data] responseContent with
    | some g => if g ≠ [] then sectionList g else []
    | none => []
  let dataModel := match sectionExtract [ "Data Model:".data]
      [ "Scalability".data] responseContent with
    | some g => trimChars g
    | none => []
  let scalability := match sectionExtractColon "Scalability".data
      [ "Tradeoffs".data] responseContent with
    | some g => trimChars g
    | none => []
  let tradeoffs := match sectionExtractColon "Tradeoffs".data [] responseContent with
    | some g => trimChars g
    | none => []
  { success := true
  , data := some
      { code := []
      , thoughts := if 0 < components.length then components
          else [ "System design approach based on requirements".data]
      , time_complexity := "N/A for system design".data
      , space_complexity := "N/A for system design".data
      , extra :=
          [ ( "diagram".data, architecture)
          , ( "architecture".data, architecture)
          , ( "data_model".data, dataModel)
          , ( "scalability".data, scalability)
          , ( "tradeoffs".data, tradeoffs)] }
  , error := none }

def processReactSolution (responseContent : Str) : ProcResult :=
  let code := match reactFenceMatch responseContent with
    | some m => trimChars m
    | none => []
  let struct := match sectionExtract [ "Component Structure:".data]
      [ "State Management:".data] responseContent with
    | some g => if g ≠ [] then sectionList g else []
    | none => []
  let stateManagement := match sectionExtract [ "State Management:".data]
      [ "Key Features:".data] responseContent with
    | some g => trimChars g
    | none => []
  let features := match sectionExtract [ "Key Features:".data]
      [ "Potential Improvements:".data] responseContent with
    | some g => if g ≠ [] then sectionList g else []
    | none => []
  { success := true
  , data := some
      { code := code
      , thoughts := if 0 < struct.length then struct
          else if 0 < features.length then features
          else [ "React component design based on requirements".data]
      , time_complexity := "N/A for React components".data
      , space_complexity := "N/A for React components".data
      , extra :=
          [ ( "component_structure".data, joinNl struct)
          , ( "state_management".data, stateManagement)] }
  , error := none }

def processSQLSolution (responseContent : Str) : ProcResult :=
  let sql := match sqlFenceMatch responseContent with
    | some m => trimChars m
    | none => []
  let explanation := match sectionExtract [ "Explanation:".data]
      [ "Performance".data] responseContent with
    | some g => if g ≠ [] then paragraphList g else []
    | none => []
  let performance := match sectionExtractColon "Performance".data
      [ "Alternative".data] responseContent with
    | some g => trimChars g
    | none => []
  let alternatives := match sectionExtractColon "Alternative".data [] responseContent with
    | some g => trimChars g
    | none => []
  { success := true
  , data := some
      { code := sql
      , thoughts := if 0 < explanation.length then explanation
          else [ "SQL query design based on requirements".data]
      , time_complexity := jsOrStr performance
          "Depends on database indexes and query execution plan".data
      , space_complexity := "Depends on result set size and temporary tables used".data
      , extra := [ ( "alternatives".data, alternatives)] }
  , error := none }

def processLinuxSolution (responseContent : Str) : ProcResult :=
  let commands := match sectionExtract
      [ "Solution Commands:".data, "Commands:".data, "Command:".data]
      [ "Explanation:".data] responseContent with
    | some g => trimChars g
    | none => []
  let explanation := match sectionExtract [ "Explanation:".data]
      [ "Verification:".data] responseContent with
    | some g => if g ≠ [] then sectionList g else []
    | none => []
  let verification := match sectionExtract [ "Verification:".data]
      [ "Alternative".data] responseContent with
    | some g => trimChars g
    | none => []
  let alternatives := match sectionExtractColon "Alternative".data [] responseContent with
    | some g => trimChars g
    | none => []
  { success := true
  , data := some
      { code := commands
      , thoughts := if 0 < explanation.length then explanation
          else [ "Linux commands based on requirements".data]
      , time_complexity := "N/A for Linux commands".data
      , space_complexity := "N/A for Linux commands".data
      , extra :=
          [ ( "verification".data, verification)
          , ( "alternatives".data, alternatives)] }
  , error := none }

def processCertificationSolution (responseContent : Str) : ProcResult :=
  let answer := match sectionExtract
      [ "Answer:".data, "Correct Answer:".data, "Solution:".data]
      [ "Explanation:".data] responseContent with
    | some g => trimChars g
    | none => []
  let explanation := match sectionExtract [ "Explanation:".data]
      [ "Additional Context:".data] responseContent with
    | some g => if g ≠ [] then paragraphList g else []
    | none => []
  let additionalContext := match sectionExtract [ "Additional Context:".data]
      [] responseContent with
    | some g => trimChars g
    | none => []
  { success := true
  , data := some
      { code := answer
      , thoughts := if 0 < explanation.length then explanation
          else [ "Certification answer based on knowledge".data]
      , time_complexity := "N/A for certification exam".data
      , space_complexity := "N/A for certification exam".data
      , extra :=
          [ ( "answer".data, answer)
          , ( "additional_context".data, additionalContext)] }
  , error := none }

/-- The mode dispatch of `processSolutionResponse`; every unrecognized mode
uses the coding parser. -/
def processSolutionResponse (responseContent mode : Str) : ProcResult :=
  if mode = "coding".data then processCodingSolution responseContent
  else if mode = "system_design".data then processSystemDesignSolution responseContent
  else if mode = "react".data then processReactSolution responseContent
  else if mode = "sql".data then processSQLSolution responseContent
  else if mode = "linux".data then processLinuxSolution responseContent
  else if mode = "certification".data then processCertificationSolution responseContent
  else processCodingSolution responseContent

/-! ## Prompt templates

`ProblemInfo` is the dynamic record parsed from the extraction response; the
prompt builders read a fixed set of optional string fields from it.  A field
interpolated without a fallback renders as the text `undefined` when absent
(JS template-literal semantics); a field guarded with `||` falls back when
absent or empty. -/

structure ProblemInfo where
  problem_statement : Option Str := none
  constraints : Option Str := none
  example_input : Option Str := none
  example_output : Option Str := none
  requirements : Option Str := none
  scale : Option Str := none
  additional_context : Option Str := none
  ui_requirements : Option Str := none
  functionality : Option Str := none
  sample_data : Option Str := none
  table_schemas : Option Str := none
  expected_output : Option Str := none
  environment : Option Str := none
  command_requirements : Option Str := none
  expected_behavior : Option Str := none
  question_type : Option Str := none
  question_text : Option Str := none
  options : Option Str := none
  context : Option Str := none
deriving DecidableEq

/-- Interpolation of a possibly-missing field without a fallback. -/
def jsShow (o : Option Str) : Str := o.getD "undefined".data

/-- Interpolation with a `||` fallback (empty strings are falsy). -/
def jsOr (o : Option Str) (d : Str) : Str :=
  match o with
  | none => d
  | some s => if s = [] then d else s

/-- The extraction system prompt, `createSystemPromptByMode`. -/
def createSystemPromptByMode (mode : Str) : Str :=
  if mode = "coding".data then
    "You are a coding challenge interpreter. Analyze the screenshot of the coding problem and extract all relevant information. Return the information in JSON format with these fields: problem_statement, constraints, example_input, example_output. Just return the structured JSON without any other text.".data
  else if mode = "system_design".data then
    "You are a system design interview assistant. Analyze the screenshot of the system design problem and extract all relevant information. Return the information in JSON format with these fields: problem_statement, requirements, constraints, scale, additional_context. Just return the structured JSON without any other text.".data
  else if mode = "react".data then
    "You are a React coding interview assistant. Analyze the screenshot of the React frontend problem and extract all relevant information. Return the information in JSON format with these fields: problem_statement, ui_requirements, functionality, constraints, sample_data. Just return the structured JSON without any other text.".data
  else if mode = "sql".data then
    "You are a SQL interview assistant. Analyze the screenshot of the SQL problem and extract all relevant information. Return the information in JSON format with these fields: problem_statement, table_schemas, sample_data, expected_output, constraints. Just return the structured JSON without any other text.".data
  else if mode = "linux".data then
    "You are a Linux/kernel interview assistant. Analyze the screenshot of the Linux/kernel problem and extract all relevant information. Return the information in JSON format with these fields: problem_statement, environment, command_requirements, expected_behavior, constraints. Just return the structured JSON without any other text.".data
  else if mode = "certification".data then
    "You are a certification exam assistant. Analyze the screenshot of the exam question and extract all relevant information. First determine the question type (multiple_choice, fill_in_blank, matching, arrange, other). Return the information in JSON format with these fields: question_type, question_text, options (if applicable), context. Just return the structured JSON without any other text.".data
  else
    "You are a coding challenge interpreter. Analyze the screenshot of the coding problem and extract all relevant information. Return the information in JSON format with these fields: problem_statement, constraints, example_input, example_output. Just return the structured JSON without any other text.".data

/-- The solution user prompt, `createSolutionPromptByMode`. -/
def createSolutionPromptByMode (mode : Str) (problemInfo : ProblemInfo) (language : Str) : Str :=
  if mode = "coding".data then
    "\nGenerate a detailed solution for the following coding problem:\n\nPROBLEM STATEMENT:\n".data
    ++ jsShow problemInfo.problem_statement
    ++ "\n\nCONSTRAINTS:\n".data
    ++ jsOr problemInfo.constraints "No specific constraints provided.".data
    ++ "\n\nEXAMPLE INPUT:\n".data
    ++ jsOr problemInfo.example_input "No example input provided.".data
    ++ "\n\nEXAMPLE OUTPUT:\n".data
    ++ jsOr problemInfo.example_output "No example output provided.".data
    ++ "\n\nLANGUAGE: ".data ++ language
    ++ "\n\nI need the response in the following format:\n1. Code: A clean, optimized implementation in ".data
    ++ language
    ++ "\n2. Your Thoughts: A list of key insights and reasoning behind your approach\n3. Time complexity: O(X) with a detailed explanation (at least 2 sentences)\n4. Space complexity: O(X) with a detailed explanation (at least 2 sentences)\n\nFor complexity explanations, please be thorough. For example: \"Time complexity: O(n) because we iterate through the array only once. This is optimal as we need to examine each element at least once to find the solution.\" or \"Space complexity: O(n) because in the worst case, we store all elements in the hashmap. The additional space scales linearly with the input size.\"\n\nYour solution should be efficient, well-commented, and handle edge cases.\n".data
  else if mode = "system_design".data then
    "\nGenerate a detailed solution for the following system design problem:\n\nPROBLEM STATEMENT:\n".data
    ++ jsShow problemInfo.problem_statement
    ++ "\n\nREQUIREMENTS:\n".data
    ++ jsOr problemInfo.requirements "No specific requirements provided.".data
    ++ "\n\nCONSTRAINTS:\n".data
    ++ jsOr problemInfo.constraints "No specific constraints provided.".data
    ++ "\n\nSCALE:\n".data
    ++ jsOr problemInfo.scale "No specific scale information provided.".data
    ++ "\n\nADDITIONAL CONTEXT:\n".data
    ++ jsOr problemInfo.additional_context "No additional context provided.".data
    ++ "\n\nI need the response in the following format:\n1. System Architecture: High-level architecture with key components\n2. Key Components: List each major component and its responsibility\n3. Data Model: Describe the data schemas and storage choices\n4. Scalability Considerations: How this design scales to handle growth\n5. Tradeoffs: List of the key tradeoffs in your design\n\nYour solution should be clear, efficient, and address all the requirements and constraints.\n".data
  else if mode = "react".data then
    "\nGenerate a detailed solution for the following React frontend coding problem:\n\nPROBLEM STATEMENT:\n".data
    ++ jsShow problemInfo.problem_statement
    ++ "\n\nUI REQUIREMENTS:\n".data
    ++ jsOr problemInfo.ui_requirements "No specific UI requirements provided.".data
    ++ "\n\nFUNCTIONALITY:\n".data
    ++ jsOr problemInfo.functionality "No specific functionality details provided.".data
    ++ "\n\nCONSTRAINTS:\n".data
    ++ jsOr problemInfo.constraints "No specific constraints provided.".data
    ++ "\n\nSAMPLE DATA:\n".data
    ++ jsOr problemInfo.sample_data "No sample data provided.".data
    ++ "\n\nI need the response in the following format:\n1. Code: A clean, optimized React implementation\n2. Component Structure: Description of the component hierarchy\n3. State Management: How state is handled in the solution\n4. Key Features: Highlight of important implementation details\n5. Potential Improvements: How the solution could be extended\n\nYour solution should use modern React practices, be performant, and meet all requirements.\n".data
  else if mode = "sql".data then
    "\nGenerate a detailed solution for the following SQL problem:\n\nPROBLEM STATEMENT:\n".data
    ++ jsShow problemInfo.problem_statement
    ++ "\n\nTABLE SCHEMAS:\n".data
    ++ jsOr problemInfo.table_schemas "No specific table schemas provided.".data
    ++ "\n\nSAMPLE DATA:\n".data
    ++ jsOr problemInfo.sample_data "No sample data provided.".data
    ++ "\n\nEXPECTED OUTPUT:\n".data
    ++ jsOr problemInfo.expected_output "No specific expected output provided.".data
    ++ "\n\nCONSTRAINTS:\n".data
    ++ jsOr problemInfo.constraints "No specific constraints provided.".data
    ++ "\n\nI need the response in the following format:\n1. SQL Query: A clean, optimized SQL solution\n2. Explanation: Step-by-step explanation of how the query works\n3. Performance Considerations: Any indexes or optimizations to consider\n4. Alternative Approaches: Other ways to solve this problem\n\nYour solution should be efficient, follow best practices, and produce the expected output.\n".data
  else if mode = "linux".data then
    "\nGenerate a detailed solution for the following Linux/kernel problem:\n\nPROBLEM STATEMENT:\n".data
    ++ jsShow problemInfo.problem_statement
    ++ "\n\nENVIRONMENT:\n".data
    ++ jsOr problemInfo.environment "No specific environment details provided.".data
    ++ "\n\nCOMMAND REQUIREMENTS:\n".data
    ++ jsOr problemInfo.command_requirements "No specific command requirements provided.".data
    ++ "\n\nEXPECTED BEHAVIOR:\n".data
    ++ jsOr problemInfo.expected_behavior "No specific expected behavior provided.".data
    ++ "\n\nCONSTRAINTS:\n".data
    ++ jsOr problemInfo.constraints "No specific constraints provided.".data
    ++ "\n\nI need the response in the following format:\n1. Solution Commands: The exact commands to solve the problem\n2. Explanation: Step-by-step explanation of what each command does\n3. Verification: How to verify the solution works correctly\n4. Alternative Approaches: Other ways to solve this problem\n\nYour solution should be efficient, follow best practices, and meet all requirements.\n".data
  else if mode = "certification".data then
    "\nGenerate a detailed solution for the following certification exam question:\n\nQUESTION TYPE:\n".data
    ++ jsOr problemInfo.question_type "Unknown".data
    ++ "\n\nQUESTION TEXT:\n".data
    ++ jsShow problemInfo.question_text
    ++ "\n\nOPTIONS:\n".data
    ++ jsOr problemInfo.options "No options provided.".data
    ++ "\n\nCONTEXT:\n".data
    ++ jsOr problemInfo.context "No specific context provided.".data
    ++ "\n\nI need both the answer and a detailed explanation:\n1. Answer: Clear, direct answer to the question\n2. Explanation: Detailed explanation of why this is the correct answer\n3. Additional Context: Any important information that helps understand the topic\n\nYour solution should be accurate and comprehensive.\n".data
  else
    "\nGenerate a detailed solution for the following problem:\n\nPROBLEM STATEMENT:\n".data
    ++ jsShow problemInfo.problem_statement
    ++ "\n\nI need a comprehensive solution with clear explanations.\n".data

/-- The debug system prompt, `createDebugSystemPromptByMode`. -/
def createDebugSystemPromptByMode (mode : Str) : Str :=
  if mode = "coding".data then
    "You are a coding interview assistant helping debug and improve solutions. Analyze these screenshots which include either error messages, incorrect outputs, or test cases, and provide detailed debugging help.\n\nYour response MUST follow this exact structure with these section headers (use ### for headers):\n### Issues Identified\n- List each issue as a bullet point with clear explanation\n\n### Specific Improvements and Corrections\n- List specific code changes needed as bullet points\n\n### Optimizations\n- List any performance optimizations if applicable\n\n### Explanation of Changes Needed\nHere provide a clear explanation of why the changes are needed\n\n### Key Points\n- Summary bullet points of the most important takeaways\n\nIf you include code examples, use proper markdown code blocks with language specification (e.g. ```java).".data
  else if mode = "system_design".data then
    "You are a system design interview assistant helping improve design solutions. Analyze these screenshots which include either system design diagrams, potential issues, or requirements, and provide detailed improvement suggestions.\n\nYour response MUST follow this exact structure with these section headers (use ### for headers):\n### Design Issues Identified\n- List each issue as a bullet point with clear explanation\n\n### Architecture Improvements\n- List specific architecture changes needed as bullet points\n\n### Scalability Enhancements\n- Suggest ways to improve scalability\n\n### Data Flow Optimizations\n- Suggest improvements to data flow and processing\n\n### Key Points\n- Summary bullet points of the most important takeaways".data
  else if mode = "react".data then
    "You are a React interview assistant helping debug and improve frontend solutions. Analyze these screenshots which include React code, UI issues, or requirements, and provide detailed debugging help.\n\nYour response MUST follow this exact structure with these section headers (use ### for headers):\n### UI/UX Issues Identified\n- List each issue as a bullet point with clear explanation\n\n### Component Structure Improvements\n- Suggest better component organization if applicable\n\n### State Management Optimizations\n- Suggest improvements to how state is managed\n\n### Performance Enhancements\n- List ways to improve React performance\n\n### Key Points\n- Summary bullet points of the most important takeaways\n\nIf you include code examples, use proper markdown code blocks with language specification (e.g. ```jsx).".data
  else if mode = "sql".data then
    "You are a SQL interview assistant helping debug and improve database queries. Analyze these screenshots which include SQL queries, error messages, or requirements, and provide detailed debugging help.\n\nYour response MUST follow this exact structure with these section headers (use ### for headers):\n### Query Issues Identified\n- List each issue as a bullet point with clear explanation\n\n### Query Improvements\n- List specific SQL changes needed as bullet points\n\n### Performance Optimizations\n- Suggest indexes or query rewrites for better performance\n\n### Alternative Approaches\n- Suggest alternative query strategies if applicable\n\n### Key Points\n- Summary bullet points of the most important takeaways\n\nIf you include code examples, use proper markdown code blocks with language specification (e.g. ```sql).".data
  else if mode = "linux".data then
    "You are a Linux/kernel interview assistant helping debug and improve command-line solutions. Analyze these screenshots which include commands, error messages, or requirements, and provide detailed debugging help.\n\nYour response MUST follow this exact structure with these section headers (use ### for headers):\n### Command Issues Identified\n- List each issue as a bullet point with clear explanation\n\n### Command Improvements\n- List specific command changes needed as bullet points\n\n### Alternative Commands\n- Suggest alternative commands that might work better\n\n### Verification Steps\n- Suggest how to verify the solution works correctly\n\n### Key Points\n- Summary bullet points of the most important takeaways\n\nIf you include code examples, use proper markdown code blocks with language specification (e.g. ```bash).".data
  else if mode = "certification".data then
    "You are a certification exam assistant helping clarify answers and explanations. Analyze these screenshots which include exam questions, answers, or explanations, and provide detailed help.\n\nYour response MUST follow this exact structure with these section headers (use ### for headers):\n### Answer Analysis\n- Explain if the answer is correct or incorrect and why\n\n### Correct Solution\n- Provide the correct answer with explanation\n\n### Key Concepts\n- List the important concepts being tested in this question\n\n### Related Knowledge\n- Provide additional relevant information about the topic\n\n### Study Resources\n- Suggest what to study further on this topic\n\nEnsure your explanations are clear, accurate, and educational.".data
  else
    "You are a coding interview assistant helping debug and improve solutions. Analyze these screenshots which include either error messages, incorrect outputs, or test cases, and provide detailed debugging help.\n\nYour response MUST follow this exact structure with these section headers (use ### for headers):\n### Issues Identified\n- List each issue as a bullet point with clear explanation\n\n### Specific Improvements and Corrections\n- List specific code changes needed as bullet points\n\n### Optimizations\n- List any performance optimizations if applicable\n\n### Explanation of Changes Needed\nHere provide a clear explanation of why the changes are needed\n\n### Key Points\n- Summary bullet points of the most important takeaways\n\nIf you include code examples, use proper markdown code blocks with language specification (e.g. ```java).".data

/-- The debug user prompt, `createDebugUserPromptByMode`. -/
def createDebugUserPromptByMode (mode : Str) (problemInfo : ProblemInfo) (language : Str) : Str :=
  if mode = "coding".data then
    "I\x27m solving this coding problem: \"".data
    ++ jsShow problemInfo.problem_statement
    ++ "\" in ".data ++ language
    ++ ". I need help with debugging or improving my solution. Here are screenshots of my code, the errors or test cases. Please provide a detailed analysis with:\n1. What issues you found in my code\n2. Specific improvements and corrections\n3. Any optimizations that would make the solution better\n4. A clear explanation of the changes needed".data
  else if mode = "system_design".data then
    "I\x27m working on this system design problem: \"".data
    ++ jsShow problemInfo.problem_statement
    ++ "\". I need help with improving my design solution. Here are screenshots of my current design, potential issues, or additional requirements. Please provide a detailed analysis with:\n1. What design issues you identified\n2. Specific architecture improvements\n3. How to enhance scalability\n4. Data flow optimizations".data
  else if mode = "react".data then
    "I\x27m implementing this React frontend problem: \"".data
    ++ jsShow problemInfo.problem_statement
    ++ "\". I need help with debugging or improving my solution. Here are screenshots of my React code, UI issues, or requirements. Please provide a detailed analysis with:\n1. What UI/UX issues you identified\n2. How to improve component structure\n3. Better state management approaches\n4. Performance enhancements".data
  else if mode = "sql".data then
    "I\x27m solving this SQL problem: \"".data
    ++ jsShow problemInfo.problem_statement
    ++ "\". I need help with debugging or improving my query. Here are screenshots of my SQL code, error messages, or requirements. Please provide a detailed analysis with:\n1. What issues you found in my query\n2. Specific improvements and corrections\n3. Any performance optimizations\n4. Alternative query approaches".data
  else if mode = "linux".data then
    "I\x27m working on this Linux/kernel problem: \"".data
    ++ jsShow problemInfo.problem_statement
    ++ "\". I need help with debugging or improving my command-line solution. Here are screenshots of my commands, error messages, or requirements. Please provide a detailed analysis with:\n1. What issues you found in my commands\n2. Specific command improvements\n3. Alternative commands that might work better\n4. How to verify the solution works".data
  else if mode = "certification".data then
    "I\x27m studying for a certification exam and encountered this question: \"".data
    ++ jsShow problemInfo.question_text
    ++ "\". I need help understanding the correct answer. Here are screenshots of the question, answer choices, or my attempt. Please provide a detailed analysis with:\n1. Whether my answer is correct or not and why\n2. The correct solution with explanation\n3. Key concepts being tested\n4. Related knowledge I should know\n5. What I should study further on this topic".data
  else
    "I need help with debugging or improving my solution. Here are screenshots of my code, the errors or test cases. Please provide a detailed analysis with:\n1. What issues you found\n2. Specific improvements and corrections\n3. Any optimizations that would make the solution better\n4. A clear explanation of the changes needed".data

/-! ## Model messages and the Claude message conversion -/

inductive Role where
  | system
  | user
  | assistant
deriving DecidableEq

inductive MessageContent where
  | text (t : Str)
  | image_url (url : Str)
deriving DecidableEq

/-- A model message: the content is either a plain string or a part list. -/
structure ModelMessage where
  role : Role
  content : Str ⊕ List MessageContent
deriving DecidableEq

inductive ClaudeRole where
  | user
  | assistant
deriving DecidableEq

inductive ClaudeContent where
  | text (t : Str)
  | image (media_type : Str) (data : Str)
deriving DecidableEq

structure ClaudeMessage where
  role : ClaudeRole
  content : List ClaudeContent
deriving DecidableEq

/-- The system prompt drawn from a system message: the string itself, or the
newline-join of the text parts of a part list. -/
def flattenSystemContent : Str ⊕ List MessageContent → Str
  | .inl s => s
  | .inr items =>
    joinNl (items.filterMap (fun item =>
      match item with
      | .text t => some t
      | _ => none))

def convertContentItem : MessageContent → ClaudeContent
  | .text t => .text t
  | .image_url url =>
    .image "image/png".data (removeFirst "data:image/png;base64,".data url)

def convertMessage (m : ModelMessage) : ClaudeMessage :=
  { role := if m.role = Role.assistant then ClaudeRole.assistant else ClaudeRole.user
  , content :=
      match m.content with
      | .inr items => items.map convertContentItem
      | .inl s => [ClaudeContent.text s] }

/-- The conversion `convertToClaudeMessages`: the first system message (if
any) becomes the single system prompt, every non-system message is
converted in order. -/
def convertToClaudeMessages (messages : List ModelMessage) :
    List ClaudeMessage × Str :=
  let systemMessages := messages.filter (fun m => m.role == Role.system)
  let systemPrompt := match systemMessages with
    | [] => []
    | m :: _ => flattenSystemContent m.content
  let nonSystemMessages := messages.filter (fun m => !(m.role == Role.system))
  (nonSystemMessages.map convertMessage, systemPrompt)

/-! ## Provider adapters

Each adapter is embedded as its mutable state (API key, validated model id,
and the lazily initialized client, present only for a non-empty key) plus a
step function per operation returning either an immediate failure or the
provider request it would send.  The request records only the fields the
source actually places into the vendor call. -/

structure ModelInfo where
  maxTokens : Nat
  supportsVision : Bool
  description : Str
deriving DecidableEq

def OPENAI_MODELS : List (Str × ModelInfo) :=
  [ ( "gpt-4o".data, ⟨128000, true, "Best overall performance, supports images".data⟩)
  , ( "gpt-4o-mini".data, ⟨128000, true, "Faster, more cost-effective option with vision".data⟩)
  , ( "gpt-4-turbo".data, ⟨128000, true, "Advanced capabilities with vision support".data⟩)
  , ( "gpt-3.5-turbo".data, ⟨16385, false, "Fast and efficient for text-only tasks".data⟩)]

def CLAUDE_MODELS : List (Str × ModelInfo) :=
  [ ( "claude-3-opus-20240229".data, ⟨200000, true, "Most powerful Claude model".data⟩)
  , ( "claude-3-sonnet-20240229".data, ⟨200000, true, "Great balance of intelligence and speed".data⟩)
  , ( "claude-3-haiku-20240307".data, ⟨200000, true, "Fastest Claude model, good for quick responses".data⟩)
  , ( "claude-3-5-sonnet-20240620".data, ⟨200000, true, "Latest Claude with improved capabilities".data⟩)]

def lookupModel : List (Str × ModelInfo) → Str → Option ModelInfo
  | [], _ => none
  | (k, info) :: rest, m => if k = m then some info else lookupModel rest m

/-- Request options common to both adapters; `signal` records whether the
caller's cancellation token is in the aborted state. -/
structure ModelRequestOptions where
  signal : Option Bool := none
  maxTokens : Option Nat := none
  temperature : Option ℚ := none
deriving DecidableEq

structure OpenAIState where
  apiKey : Str
  model : Str
  client : Option Str
deriving DecidableEq

/-- The client setup step of both adapters: an empty key leaves the client
null. -/
def initClient (apiKey : Str) : Option Str :=
  if apiKey = [] then none else some apiKey

def validateModelO (model : Str) : Str :=
  if (lookupModel OPENAI_MODELS model).isSome then model else "gpt-4o".data

def mkOpenAI (apiKey model : Str) : OpenAIState :=
  ⟨apiKey, validateModelO model, initClient apiKey⟩

def setModelO (a : OpenAIState) (model : Str) : OpenAIState :=
  { a with model := validateModelO model }

def supportsVisionO (a : OpenAIState) : Bool :=
  match lookupModel OPENAI_MODELS a.model with
  | some info => info.supportsVision
  | none => false

/-- The fields `OpenAIAdapter.complete`/`vision` pass to the vendor API. -/
structure CompletionRequest where
  model : Str
  messages : List ModelMessage
  max_tokens : Option Nat
  temperature : ℚ
  stream : Bool
deriving DecidableEq

def buildReqO (a : OpenAIState) (messages : List ModelMessage)
    (options : ModelRequestOptions) : CompletionRequest :=
  ⟨a.model, messages, options.maxTokens, options.temperature.getD (7 / 10 : ℚ), false⟩

inductive AdapterCall (ρ : Type) where
  | notInitialized
  | unsupported (model : Str)
  | request (r : ρ)
deriving DecidableEq

def completeCallO (a : OpenAIState) (messages : List ModelMessage)
    (options : ModelRequestOptions) : AdapterCall CompletionRequest :=
  match a.client with
  | none => .notInitialized
  | some _ => .request (buildReqO a messages options)

/-- The step function of `OpenAIAdapter.vision`: the client check precedes
the capability check. -/
def visionCallO (a : OpenAIState) (messages : List ModelMessage)
    (options : ModelRequestOptions) : AdapterCall CompletionRequest :=
  match a.client with
  | none => .notInitialized
  | some _ =>
    if !supportsVisionO a then .unsupported a.model
    else .request (buildReqO a messages options)

structure ClaudeState where
  apiKey : Str
  model : Str
  client : Option Str
deriving DecidableEq

def validateModelC (model : Str) : Str :=
  if (lookupModel CLAUDE_MODELS model).isSome then model
  else "claude-3-sonnet-20240229".data

def mkClaude (apiKey model : Str) : ClaudeState :=
  ⟨apiKey, validateModelC model, initClient apiKey⟩

def setModelC (a : ClaudeState) (model : Str) : ClaudeState :=
  { a with model := validateModelC model }

def supportsVisionC (a : ClaudeState) : Bool :=
  match lookupModel CLAUDE_MODELS a.model with
  | some info => info.supportsVision
  | none => false

/-- The fields `ClaudeAdapter.complete` passes to the vendor API (with the
converted messages and the separated system prompt). -/
structure ClaudeRequest where
  model : Str
  system_prompt : Str
  messages : List ClaudeMessage
  max_tokens : Nat
  temperature : ℚ
deriving DecidableEq

/-- JS `options?.maxTokens || 4000`: absent and zero both fall back. -/
def jsOrNat (o : Option Nat) (d : Nat) : Nat :=
  match o with
  | none => d
  | some n => if n = 0 then d else n

def buildReqC (a : ClaudeState) (messages : List ModelMessage)
    (options : ModelRequestOptions) : ClaudeRequest :=
  ⟨a.model, (convertToClaudeMessages messages).2, (convertToClaudeMessages messages).1,
    jsOrNat options.maxTokens 4000, options.temperature.getD (7 / 10 : ℚ)⟩

def completeCallC (a : ClaudeState) (messages : List ModelMessage)
    (options : ModelRequestOptions) : AdapterCall ClaudeRequest :=
  match a.client with
  | none => .notInitialized
  | some _ => .request (buildReqC a messages options)

/-- The step function of `ClaudeAdapter.vision`: the capability check
precedes everything, then the call is delegated to `complete`. -/
def visionCallC (a : ClaudeState) (messages : List ModelMessage)
    (options : ModelRequestOptions) : AdapterCall ClaudeRequest :=
  if !supportsVisionC a then .unsupported a.model
  else completeCallC a messages options

/-! ## Orchestration models

`ProcessingHelper` keeps one mutable `modelAdapter` field, re-initialized by
the `config-updated` listener, and reads it once per adapter call (once at
the extraction call, once again at the solution call).  The model below
replays an interleaving of those three kinds of step and records which
adapter instance each call observed; instances are numbered at creation so
identity is visible. -/

inductive ProviderT where
  | openai
  | claude
deriving DecidableEq

structure ProvCfg where
  apiKey : Str
  model : Str
deriving DecidableEq

structure AppConfig where
  activeProvider : ProviderT
  openaiCfg : ProvCfg
  claudeCfg : ProvCfg
deriving DecidableEq

def providerCfg (c : AppConfig) : ProvCfg :=
  match c.activeProvider with
  | .openai => c.openaiCfg
  | .claude => c.claudeCfg

structure AdapterInst where
  provider : ProviderT
  apiKey : Str
  model : Str
  instanceId : Nat
deriving DecidableEq

structure OrchState where
  modelAdapter : Option AdapterInst
  nextId : Nat
  extractionAdapter : Option AdapterInst
  solutionAdapter : Option AdapterInst
deriving DecidableEq

/-- The re-initialization step of `ProcessingHelper`: build a fresh adapter
instance from the active
provider config when it has a key, otherwise clear the field. -/
def reinitModelAdapter (s : OrchState) (c : AppConfig) : OrchState :=
  if (providerCfg c).apiKey ≠ [] then
    { s with
        modelAdapter := some ⟨c.activeProvider, (providerCfg c).apiKey,
          (providerCfg c).model, s.nextId⟩
        nextId := s.nextId + 1 }
  else { s with modelAdapter := none }

inductive RunEv where
  | extractionCall
  | configUpdated (c : AppConfig)
  | solutionCall
deriving DecidableEq

def RunEv.isConfig : RunEv → Bool
  | .configUpdated _ => true
  | _ => false

def runStep (s : OrchState) : RunEv → OrchState
  | .extractionCall => { s with extractionAdapter := s.modelAdapter }
  | .configUpdated c => reinitModelAdapter s c
  | .solutionCall => { s with solutionAdapter := s.modelAdapter }

def runTrace (s : OrchState) (evs : List RunEv) : OrchState :=
  evs.foldl runStep s

/-! ## Events and the cancellation path

`processScreenshots` (queue view) forwards the result of
`processScreenshotsHelper` to the renderer: success sends the solution event;
a failure whose message mentions the API key sends the invalid-key event;
every other failure — including the cancellation outcome, which the helper
returns as a failure with a fixed message — sends the generic error event. -/

inductive PEvent where
  | initialStart
  | noScreenshots
  | apiKeyInvalid
  | solutionSuccess (d : Option SolutionData)
  | initialSolutionError (msg : Option Str)
  | problemExtracted
  | debugStart
  | debugSuccess (d : Option SolutionData)
  | debugError (msg : Option Str)
deriving DecidableEq

def cancelMessage : Str := "Processing was canceled by the user.".data

/-- The outcome events of the primary-queue branch of `processScreenshots`. -/
def queueResultEvents (result : ProcResult) : List PEvent :=
  if result.success then [PEvent.solutionSuccess result.data]
  else if containsSub "API Key".data (result.error.getD []) ||
          containsSub "API key".data (result.error.getD []) then
    [PEvent.apiKeyInvalid]
  else [PEvent.initialSolutionError result.error]

/-- The value `processScreenshotsHelper` returns when the in-flight request
reports cancellation. -/
def cancelledHelperResult : ProcResult :=
  { success := false, error := some cancelMessage }

/-- The state touched by `cancelOngoingRequests`: the two abort controllers,
the set of aborted tokens, the debug flag, the stored problem info, and the
events sent so far.  (Setting an already-null controller field to null is the
identity, so the two conditional blocks are folded into unconditional
clears plus conditional token aborts.) -/
structure CancelSt where
  procCtrl : Option Nat
  extraCtrl : Option Nat
  abortedTokens : List Nat
  hasDebugged : Bool
  problemInfo : Option ProblemInfo
  emitted : List PEvent
deriving DecidableEq

def cancelOngoingRequests (s : CancelSt) : CancelSt :=
  { procCtrl := none
  , extraCtrl := none
  , abortedTokens :=
      (match s.procCtrl with
       | some c => s.abortedTokens ++ [c]
       | none => s.abortedTokens) ++
      (match s.extraCtrl with
       | some c => [c]
       | none => [])
  , hasDebugged := false
  , problemInfo := none
  , emitted :=
      if s.procCtrl.isSome || s.extraCtrl.isSome then
        s.emitted ++ [PEvent.noScreenshots]
      else s.emitted }

/-! ## Auxiliary lemmas -/

def codeOf (r : ProcResult) : Option Str := r.data.map (fun d => d.code)

theorem ite_thoughts_ne_nil (l : List Str) (x : Str) :
    (if 0 < l.length then l else [x]) ≠ [] := by
  split
  · rename_i h
    exact List.ne_nil_of_length_pos h
  · simp

theorem ite2_thoughts_ne_nil (l1 l2 : List Str) (x : Str) :
    (if 0 < l1.length then l1 else if 0 < l2.length then l2 else [x]) ≠ [] := by
  split
  · rename_i h
    exact List.ne_nil_of_length_pos h
  · exact ite_thoughts_ne_nil _ _

theorem jsOrStr_ne_nil (s d : Str) (hd : d ≠ []) : jsOrStr s d ≠ [] := by
  unfold jsOrStr
  split
  · exact hd
  · rename_i h
    exact h

theorem fixComplexity_ne_nil (dflt : Str) (m : Option Str) (hd : dflt ≠ []) :
    fixComplexity dflt m ≠ [] := by
  unfold fixComplexity
  split
  · exact hd
  · rename_i g
    split
    · exact hd
    · split
      · intro hcontr
        have := congrArg List.length hcontr
        simp [List.length_append] at this
      · split
        · split
          · rename_i nota _
            intro hcontr
            have := congrArg List.length hcontr
            have h3 : (" - ".data).length = 3 := by decide
            simp [List.length_append, h3] at this
          · rename_i hmatch
            simp_all
        · rename_i hno hcond
          cases hfb : findBigO (trimChars g) with
          | none => simp [hfb] at hno
          | some t => exact findBigO_ne_nil _ t hfb

theorem extendLinesF_ne_nil (look : Str → Bool) :
    ∀ fuel : Nat, ∀ rest acc out : Str, acc ≠ [] →
      extendLinesF look fuel acc rest = some out → out ≠ [] := by
  intro fuel
  induction fuel with
  | zero =>
    intro rest acc out ha h
    unfold extendLinesF at h
    split at h
    · simp only [Option.some.injEq] at h
      subst h
      exact ha
    · exact absurd h (by simp)
  | succ n ih =>
    intro rest acc out ha h
    unfold extendLinesF at h
    split at h
    · simp only [Option.some.injEq] at h
      subst h
      exact ha
    · split at h
      · split at h
        · exact absurd h (by simp)
        · refine ih _ _ _ ?_ h
          simp [ha]
      · exact absurd h (by simp)

theorem linesGroup_ne_nil (look : Str → Bool) (l g : Str)
    (h : linesGroup look l = some g) : g ≠ [] := by
  unfold linesGroup at h
  split at h
  · exact absurd h (by simp)
  · rename_i hline
    exact extendLinesF_ne_nil look _ _ _ _ hline h

theorem groupWithWs_ne_nil (look : Str → Bool) (l : Str) :
    ∀ k g, groupWithWs look l k = some g → g ≠ [] := by
  intro k
  induction k with
  | zero =>
    intro g h
    exact linesGroup_ne_nil look l g h
  | succ n ih =>
    intro g h
    unfold groupWithWs at h
    split at h
    · rename_i g' heq
      simp only [Option.some.injEq] at h
      subst h
      exact linesGroup_ne_nil look _ _ heq
    · exact ih g h

theorem complexityGroup_ne_nil (look : Str → Bool) (l g : Str)
    (h : complexityGroup look l = some g) : g ≠ [] :=
  groupWithWs_ne_nil look l _ g h

theorem complexityAfterLabel_ne_nil (look : Str → Bool) (l g : Str)
    (h : complexityAfterLabel look l = some g) : g ≠ [] := by
  unfold complexityAfterLabel at h
  split at h
  · split at h
    · rename_i heq
      simp only [Option.some.injEq] at h
      subst h
      exact complexityGroup_ne_nil look _ _ heq
    · exact complexityGroup_ne_nil look _ _ h
  · exact complexityGroup_ne_nil look _ _ h

theorem complexityMatch_ne_nil (label : Str) (look : Str → Bool) :
    ∀ s g, complexityMatch label look s = some g → g ≠ [] := by
  intro s
  induction s with
  | nil => intro g h; simp [complexityMatch] at h
  | cons c r ih =>
    intro g h
    unfold complexityMatch at h
    split at h
    · split at h
      · rename_i heq
        simp only [Option.some.injEq] at h
        subst h
        exact complexityAfterLabel_ne_nil look _ _ heq
      · exact ih g h
    · exact ih g h

theorem filter_head_eq_find? {α : Type} (p : α → Bool) (l : List α) :
    (match l.filter p with
     | [] => none
     | x :: _ => some x) = l.find? p := by
  induction l with
  | nil => simp
  | cons a t ih =>
    by_cases h : p a
    · simp [List.filter_cons, h, List.find?_cons, ih]
    · simp [List.filter_cons, h, List.find?_cons, ih]

/-! ## Per-mode parser results are always successful -/

theorem processCodingSolution_good (s : Str) :
    (processCodingSolution s).success = true ∧
    (processCodingSolution s).error = none ∧
    ∃ d, (processCodingSolution s).data = some d ∧
      d.thoughts ≠ [] ∧ d.time_complexity ≠ [] ∧ d.space_complexity ≠ [] := by
  refine ⟨rfl, rfl, _, rfl, ?_, ?_, ?_⟩
  · exact ite_thoughts_ne_nil _ _
  · exact fixComplexity_ne_nil _ _ (by decide)
  · exact fixComplexity_ne_nil _ _ (by decide)

theorem processSystemDesignSolution_good (s : Str) :
    (processSystemDesignSolution s).success = true ∧
    (processSystemDesignSolution s).error = none ∧
    ∃ d, (processSystemDesignSolution s).data = some d ∧
      d.thoughts ≠ [] ∧ d.time_complexity ≠ [] ∧ d.space_complexity ≠ [] := by
  refine ⟨rfl, rfl, _, rfl, ?_, ?_, ?_⟩
  · exact ite_thoughts_ne_nil _ _
  · show ( "N/A for system design".data : Str) ≠ []
    decide
  · show ( "N/A for system design".data : Str) ≠ []
    decide

theorem processReactSolution_good (s : Str) :
    (processReactSolution s).success = true ∧
    (processReactSolution s).error = none ∧
    ∃ d, (processReactSolution s).data = some d ∧
      d.thoughts ≠ [] ∧ d.time_complexity ≠ [] ∧ d.space_complexity ≠ [] := by
  refine ⟨rfl, rfl, _, rfl, ?_, ?_, ?_⟩
  · exact ite2_thoughts_ne_nil _ _ _
  · show ( "N/A for React components".data : Str) ≠ []
    decide
  · show ( "N/A for React components".data : Str) ≠ []
    decide

theorem processSQLSolution_good (s : Str) :
    (processSQLSolution s).success = true ∧
    (processSQLSolution s).error = none ∧
    ∃ d, (processSQLSolution s).data = some d ∧
      d.thoughts ≠ [] ∧ d.time_complexity ≠ [] ∧ d.space_complexity ≠ [] := by
  refine ⟨rfl, rfl, _, rfl, ?_, ?_, ?_⟩
  · exact ite_thoughts_ne_nil _ _
  · exact jsOrStr_ne_nil _ _ (by decide)
  · show ( "Depends on result set size and temporary tables used".data : Str) ≠ []
    decide

theorem processLinuxSolution_good (s : Str) :
    (processLinuxSolution s).success = true ∧
    (processLinuxSolution s).error = none ∧
    ∃ d, (processLinuxSolution s).data = some d ∧
      d.thoughts ≠ [] ∧ d.time_complexity ≠ [] ∧ d.space_complexity ≠ [] := by
  refine ⟨rfl, rfl, _, rfl, ?_, ?_, ?_⟩
  · exact ite_thoughts_ne_nil _ _
  · show ( "N/A for Linux commands".data : Str) ≠ []
    decide
  · show ( "N/A for Linux commands".data : Str) ≠ []
    decide

theorem processCertificationSolution_good (s : Str) :
    (processCertificationSolution s).success = true ∧
    (processCertificationSolution s).error = none ∧
    ∃ d, (processCertificationSolution s).data = some d ∧
      d.thoughts ≠ [] ∧ d.time_complexity ≠ [] ∧ d.space_complexity ≠ [] := by
  refine ⟨rfl, rfl, _, rfl, ?_, ?_, ?_⟩
  · exact ite_thoughts_ne_nil _ _
  · show ( "N/A for certification exam".data : Str) ≠ []
    decide
  · show ( "N/A for certification exam".data : Str) ≠ []
    decide

/-- Claim C6: for every response text and every mode, the solution-pass
parser returns a successful result (success flag set, no error, data
present) whose thoughts list and complexity fields are never empty — the
fallback sentence and default complexity statements fill in whatever the
response lacks, so a missing optional section can never fail the pass. -/
theorem c6_solution_pass_never_fails (responseContent mode : Str) :
    (processSolutionResponse responseContent mode).success = true ∧
    (processSolutionResponse responseContent mode).error = none ∧
    ∃ d, (processSolutionResponse responseContent mode).data = some d ∧
      d.thoughts ≠ [] ∧ d.time_complexity ≠ [] ∧ d.space_complexity ≠ [] := by
  unfold processSolutionResponse
  split
  · exact processCodingSolution_good _
  · split
    · exact processSystemDesignSolution_good _
    · split
      · exact processReactSolution_good _
      · split
        · exact processSQLSolution_good _
        · split
          · exact processLinuxSolution_good _
          · split
            · exact processCertificationSolution_good _
            · exact processCodingSolution_good _

/-- Closed instance of C6 at a concrete response and mode. -/
theorem c6_solution_pass_never_fails_witness :
    (processSolutionResponse "free-form text with no sections".data "sql".data).success =
      true :=
  (c6_solution_pass_never_fails "free-form text with no sections".data "sql".data).1

/-- Claim C9: the Claude message conversion keeps exactly the non-system
messages (same count, same order), maps every produced role into
user/assistant, and takes the single system prompt from the first
system-role message (later system messages are dropped silently). -/
theorem c9_claude_message_conversion (messages : List ModelMessage) :
    (convertToClaudeMessages messages).1 =
      (messages.filter (fun m => !(m.role == Role.system))).map convertMessage ∧
    (convertToClaudeMessages messages).1.length =
      (messages.filter (fun m => !(m.role == Role.system))).length ∧
    (∀ cm, cm ∈ (convertToClaudeMessages messages).1 →
      cm.role = ClaudeRole.user ∨ cm.role = ClaudeRole.assistant) ∧
    (convertToClaudeMessages messages).2 =
      (match messages.find? (fun m => m.role == Role.system) with
       | some m => flattenSystemContent m.content
       | none => []) := by
  refine ⟨rfl, by simp [convertToClaudeMessages], ?_, ?_⟩
  · intro cm hm
    simp only [convertToClaudeMessages, List.mem_map] at hm
    obtain ⟨m, _, hmc⟩ := hm
    subst hmc
    by_cases hr : m.role = Role.assistant
    · right
      simp [convertMessage, hr]
    · left
      simp [convertMessage, hr]
  · rw [← filter_head_eq_find?]
    simp only [convertToClaudeMessages]
    cases messages.filter (fun m => m.role == Role.system) <;> rfl

/-- Closed instance of C9 on a four-message list with two system messages. -/
theorem c9_witness :
    (convertToClaudeMessages
      [ ⟨Role.system, Sum.inl "first system".data⟩
      , ⟨Role.user, Sum.inl "hello".data⟩
      , ⟨Role.system, Sum.inl "second system".data⟩
      , ⟨Role.assistant, Sum.inl "reply".data⟩]).1.length = 2 ∧
    ((convertToClaudeMessages
      [ ⟨Role.system, Sum.inl "first system".data⟩
      , ⟨Role.user, Sum.inl "hello".data⟩
      , ⟨Role.system, Sum.inl "second system".data⟩
      , ⟨Role.assistant, Sum.inl "reply".data⟩]).2 = "first system".data) ∧
    (ClaudeMessage.role (convertMessage ⟨Role.user, Sum.inl "hello".data⟩) =
        ClaudeRole.user ∨
      ClaudeMessage.role (convertMessage ⟨Role.user, Sum.inl "hello".data⟩) =
        ClaudeRole.assistant) := by
  refine ⟨?_, ?_, ?_⟩
  · have h := (c9_claude_message_conversion
      [ ⟨Role.system, Sum.inl "first system".data⟩
      , ⟨Role.user, Sum.inl "hello".data⟩
      , ⟨Role.system, Sum.inl "second system".data⟩
      , ⟨Role.assistant, Sum.inl "reply".data⟩]).2.1
    rw [h]
    decide
  · have h := (c9_claude_message_conversion
      [ ⟨Role.system, Sum.inl "first system".data⟩
      , ⟨Role.user, Sum.inl "hello".data⟩
      , ⟨Role.system, Sum.inl "second system".data⟩
      , ⟨Role.assistant, Sum.inl "reply".data⟩]).2.2.2
    rw [h]
    decide
  · exact (c9_claude_message_conversion
      [ ⟨Role.system, Sum.inl "first system".data⟩
      , ⟨Role.user, Sum.inl "hello".data⟩
      , ⟨Role.system, Sum.inl "second system".data⟩
      , ⟨Role.assistant, Sum.inl "reply".data⟩]).2.2.1
      (convertMessage ⟨Role.user, Sum.inl "hello".data⟩) (by decide)

/-- Claim C10: the debug-pass thoughts list has at most five entries (the
first five bullet or numbered items found), is never empty, and is exactly
the single fallback sentence when the response has no bullet items. -/
theorem c10_debug_thoughts (s : Str) :
    (debugThoughts s).length ≤ 5 ∧
    (debugBulletMatches s = [] →
      debugThoughts s = [ "Debug analysis based on your screenshots".data]) ∧
    debugThoughts s ≠ [] := by
  refine ⟨?_, ?_, ?_⟩
  · by_cases h : debugBulletMatches s = []
    · simp [debugThoughts, h]
    · simp [debugThoughts, h, List.length_take]
  · intro h
    simp [debugThoughts, h]
  · by_cases h : debugBulletMatches s = []
    · simp [debugThoughts, h]
    · rw [Ne, ← List.length_eq_zero]
      simp [debugThoughts, h, List.length_take]


/-- Closed instance of C10 on a response without bullet items. -/
theorem c10_witness :
    debugThoughts "plain analysis, no bullets".data =
      [ "Debug analysis based on your screenshots".data] :=
  (c10_debug_thoughts _).2.1 (by decide)

/-! ## C1 — unrecognized modes -/

def recognizedModes : List Str :=
  [ "coding".data, "system_design".data, "react".data
  , "sql".data, "linux".data, "certification".data]

def c1ExampleInfo : ProblemInfo :=
  { problem_statement := some "Sum two numbers".data }

/-- Claim C1 as stated fails: the solution prompt builder and the debug
user-prompt builder resolve an unrecognized mode to generic fallback
prompts that differ from the coding-mode templates. -/
theorem c1_counterexample :
    createSolutionPromptByMode "unknown_mode".data c1ExampleInfo "python".data ≠
      createSolutionPromptByMode "coding".data c1ExampleInfo "python".data ∧
    createDebugUserPromptByMode "unknown_mode".data c1ExampleInfo "python".data ≠
      createDebugUserPromptByMode "coding".data c1ExampleInfo "python".data := by
  exact ⟨by decide, by decide⟩

/-- Claim C1 (amended): an unrecognized mode never raises an error — every
template function is total on it — and deterministically resolves to the
algorithmic-coding extraction system prompt, the coding debug system prompt
and the coding response parser; the solution prompt builder and the debug
user-prompt builder however resolve to distinct generic fallback prompts,
not the coding templates. -/
theorem c1_unrecognized_mode (mode : Str) (h : mode ∉ recognizedModes) :
    createSystemPromptByMode mode = createSystemPromptByMode "coding".data ∧
    createDebugSystemPromptByMode mode = createDebugSystemPromptByMode "coding".data ∧
    (∀ s, processSolutionResponse s mode = processCodingSolution s) ∧
    (∀ pi lang, createSolutionPromptByMode mode pi lang =
      "\nGenerate a detailed solution for the following problem:\n\nPROBLEM STATEMENT:\n".data
      ++ jsShow pi.problem_statement
      ++ "\n\nI need a comprehensive solution with clear explanations.\n".data) ∧
    (∀ pi lang, createDebugUserPromptByMode mode pi lang =
      "I need help with debugging or improving my solution. Here are screenshots of my code, the errors or test cases. Please provide a detailed analysis with:\n1. What issues you found\n2. Specific improvements and corrections\n3. Any optimizations that would make the solution better\n4. A clear explanation of the changes needed".data) := by
  simp only [recognizedModes, List.mem_cons, List.not_mem_nil, or_false, not_or] at h
  obtain ⟨h1, h2, h3, h4, h5, h6⟩ := h
  refine ⟨?_, ?_, ?_, ?_, ?_⟩
  · unfold createSystemPromptByMode
    rw [if_neg h1, if_neg h2, if_neg h3, if_neg h4, if_neg h5, if_neg h6]
    rfl
  · unfold createDebugSystemPromptByMode
    rw [if_neg h1, if_neg h2, if_neg h3, if_neg h4, if_neg h5, if_neg h6]
    rfl
  · intro s
    unfold processSolutionResponse
    rw [if_neg h1, if_neg h2, if_neg h3, if_neg h4, if_neg h5, if_neg h6]
  · intro pi lang
    unfold createSolutionPromptByMode
    rw [if_neg h1, if_neg h2, if_neg h3, if_neg h4, if_neg h5, if_neg h6]
  · intro pi lang
    unfold createDebugUserPromptByMode
    rw [if_neg h1, if_neg h2, if_neg h3, if_neg h4, if_neg h5, if_neg h6]

/-- Closed instance of the amended C1 at the mode string `typescript`. -/
theorem c1_unrecognized_mode_witness :
    createSystemPromptByMode "typescript".data =
      createSystemPromptByMode "coding".data ∧
    createDebugSystemPromptByMode "typescript".data =
      createDebugSystemPromptByMode "coding".data ∧
    processSolutionResponse "a response".data "typescript".data =
      processCodingSolution "a response".data := by
  have h := c1_unrecognized_mode "typescript".data (by decide)
  exact ⟨h.1, h.2.1, h.2.2.1 _⟩

/-! ## C2 — adapter swap during a run -/

theorem runStep_modelAdapter (s : OrchState) (e : RunEv)
    (h : e.isConfig = false) : (runStep s e).modelAdapter = s.modelAdapter := by
  cases e with
  | extractionCall => rfl
  | solutionCall => rfl
  | configUpdated c => simp [RunEv.isConfig] at h

theorem runTrace_modelAdapter (evs : List RunEv) :
    ∀ s : OrchState, evs.all (fun e => !e.isConfig) = true →
      (runTrace s evs).modelAdapter = s.modelAdapter := by
  induction evs with
  | nil => intro s _; rfl
  | cons e t ih =>
    intro s h
    simp only [List.all_cons, Bool.and_eq_true, Bool.not_eq_true'] at h
    have step : runTrace s (e :: t) = runTrace (runStep s e) t := rfl
    rw [step, ih (runStep s e) h.2, runStep_modelAdapter s e h.1]

def c2ExampleState : OrchState :=
  ⟨some ⟨ProviderT.openai, "openai-key".data, "gpt-4o".data, 0⟩, 1, none, none⟩

def c2ExampleConfig : AppConfig :=
  ⟨ProviderT.claude, ⟨ "openai-key".data, "gpt-4o".data⟩,
    ⟨ "claude-key".data, "claude-3-opus-20240229".data⟩⟩

/-- Claim C2 as stated fails: when the provider config is swapped between
the extraction call and the solution call, the solution call reads the
shared field again and uses the adapter created by the swap, not the one
the run started with. -/
theorem c2_counterexample :
    (runTrace c2ExampleState
      [RunEv.extractionCall, RunEv.configUpdated c2ExampleConfig,
       RunEv.solutionCall]).solutionAdapter ≠
      (runTrace c2ExampleState
        [RunEv.extractionCall, RunEv.configUpdated c2ExampleConfig,
         RunEv.solutionCall]).extractionAdapter ∧
    (runTrace c2ExampleState
      [RunEv.extractionCall, RunEv.configUpdated c2ExampleConfig,
       RunEv.solutionCall]).solutionAdapter =
      some ⟨ProviderT.claude, "claude-key".data, "claude-3-opus-20240229".data, 1⟩ := by
  exact ⟨by decide, by decide⟩

/-- Claim C2 (amended): each adapter call reads the shared `modelAdapter`
field at call time.  Only when no config update happens between the
extraction call and the solution call do both calls use the same adapter
instance; a call made after a swap uses the adapter freshly created from
the new active provider config. -/
theorem c2_adapter_not_pinned :
    (∀ (s : OrchState) (evs : List RunEv),
      evs.all (fun e => !e.isConfig) = true →
      (runStep (runTrace (runStep s RunEv.extractionCall) evs)
          RunEv.solutionCall).solutionAdapter =
        (runStep s RunEv.extractionCall).extractionAdapter) ∧
    (∀ (s : OrchState) (c : AppConfig), (providerCfg c).apiKey ≠ [] →
      (runStep (runStep s (RunEv.configUpdated c))
          RunEv.solutionCall).solutionAdapter =
        some ⟨c.activeProvider, (providerCfg c).apiKey, (providerCfg c).model,
          s.nextId⟩) := by
  constructor
  · intro s evs h
    show (runTrace (runStep s RunEv.extractionCall) evs).modelAdapter =
      (runStep s RunEv.extractionCall).extractionAdapter
    rw [runTrace_modelAdapter evs _ h]
    rfl
  · intro s c h
    show (runStep s (RunEv.configUpdated c)).modelAdapter = _
    simp [runStep, reinitModelAdapter, h]

/-- Closed instance of the amended C2: a swap-free run keeps one adapter,
and a solution call after a swap uses the newly created instance. -/
theorem c2_adapter_not_pinned_witness :
    (runStep (runTrace (runStep c2ExampleState RunEv.extractionCall) [])
        RunEv.solutionCall).solutionAdapter =
      (runStep c2ExampleState RunEv.extractionCall).extractionAdapter ∧
    (runStep (runStep c2ExampleState (RunEv.configUpdated c2ExampleConfig))
        RunEv.solutionCall).solutionAdapter =
      some ⟨ProviderT.claude, "claude-key".data, "claude-3-opus-20240229".data, 1⟩ := by
  constructor
  · exact c2_adapter_not_pinned.1 c2ExampleState [] (by decide)
  · exact c2_adapter_not_pinned.2 c2ExampleState c2ExampleConfig (by decide)

/-! ## C3 — events of a cancelled run -/

/-- Claim C3 as stated fails: the cancellation outcome of the primary queue
is reported through the generic failure event with the fixed cancellation
message — the failure event is emitted, not suppressed. -/
theorem c3_counterexample :
    queueResultEvents cancelledHelperResult =
      [PEvent.initialSolutionError (some cancelMessage)] ∧
    PEvent.initialSolutionError (some cancelMessage) ∈
      queueResultEvents cancelledHelperResult := by
  exact ⟨by decide, by decide⟩

/-- Claim C3 (amended): a run whose helper reports a non-success outcome —
in particular the cancellation outcome — emits no success event, but the
cancellation outcome does emit the generic failure event carrying the
cancellation message rather than suppressing it. -/
theorem c3_cancel_suppresses_success_only :
    (∀ r : ProcResult, r.success = false →
      ∀ d, PEvent.solutionSuccess d ∉ queueResultEvents r) ∧
    queueResultEvents cancelledHelperResult =
      [PEvent.initialSolutionError (some cancelMessage)] := by
  constructor
  · intro r h d
    simp only [queueResultEvents, h, Bool.false_eq_true, if_false]
    split <;> simp
  · decide

/-- Closed instance of the amended C3 at the cancellation outcome. -/
theorem c3_cancel_suppresses_success_only_witness :
    PEvent.solutionSuccess none ∉ queueResultEvents cancelledHelperResult :=
  c3_cancel_suppresses_success_only.1 cancelledHelperResult rfl none

/-! ## C4 — cancellation -/

/-- Claim C4: `cancelOngoingRequests` does abort the tokens, clear the
stored problem info, reset the debug flag, and is idempotent — but the
provider request either adapter builds is independent of the
cancellation signal in the options, so aborting the token cannot affect the
in-flight adapter call: the code drops `options.signal` on the floor. -/
theorem c4_cancellation_behavior :
    (∀ (a : OpenAIState) (messages : List ModelMessage) (s1 s2 : Option Bool)
        (mt : Option Nat) (t : Option ℚ),
      completeCallO a messages ⟨s1, mt, t⟩ = completeCallO a messages ⟨s2, mt, t⟩ ∧
      visionCallO a messages ⟨s1, mt, t⟩ = visionCallO a messages ⟨s2, mt, t⟩) ∧
    (∀ (a : ClaudeState) (messages : List ModelMessage) (s1 s2 : Option Bool)
        (mt : Option Nat) (t : Option ℚ),
      completeCallC a messages ⟨s1, mt, t⟩ = completeCallC a messages ⟨s2, mt, t⟩ ∧
      visionCallC a messages ⟨s1, mt, t⟩ = visionCallC a messages ⟨s2, mt, t⟩) ∧
    (∀ st : CancelSt,
      cancelOngoingRequests (cancelOngoingRequests st) = cancelOngoingRequests st) ∧
    (∀ st : CancelSt, (cancelOngoingRequests st).problemInfo = none ∧
      (cancelOngoingRequests st).hasDebugged = false) ∧
    (∀ (st : CancelSt) (c : Nat), st.procCtrl = some c →
      c ∈ (cancelOngoingRequests st).abortedTokens) ∧
    (∀ (st : CancelSt) (c : Nat), st.extraCtrl = some c →
      c ∈ (cancelOngoingRequests st).abortedTokens) := by
  refine ⟨?_, ?_, ?_, ?_, ?_, ?_⟩
  · intro a messages s1 s2 mt t
    obtain ⟨k, m, cl⟩ := a
    cases cl <;> exact ⟨rfl, rfl⟩
  · intro a messages s1 s2 mt t
    obtain ⟨k, m, cl⟩ := a
    cases cl <;> exact ⟨rfl, rfl⟩
  · intro st
    obtain ⟨p, e, a, hd, pi, em⟩ := st
    cases p <;> cases e <;> simp [cancelOngoingRequests]
  · intro st
    exact ⟨rfl, rfl⟩
  · intro st c h
    simp [cancelOngoingRequests, h]
  · intro st c h
    simp [cancelOngoingRequests, h]

/-- Closed instance of C4: a concrete cancel aborts the live token. -/
theorem c4_cancellation_behavior_witness :
    7 ∈ (cancelOngoingRequests ⟨some 7, none, [], true, some {}, []⟩).abortedTokens :=
  c4_cancellation_behavior.2.2.2.2.1 ⟨some 7, none, [], true, some {}, []⟩ 7 rfl

/-! ## C5 — code extraction -/

/-- Claim C5 as stated fails: in react mode a non-empty response without a
fenced code block parses to an empty code field, not to the response text. -/
theorem c5_counterexample :
    ( "No code here.".data : Str) ≠ [] ∧
    codeOf (processSolutionResponse "No code here.".data "react".data) = some [] := by
  exact ⟨by decide, by decide⟩

/-- Claim C5 (amended): the coding parser (also used for unrecognized
modes) takes the trimmed inner text of the first fenced block when one is
present and the whole response verbatim otherwise; the react and SQL
parsers take the trimmed first fenced block when present but fall back to
the empty string, not to the response text. -/
theorem c5_code_extraction (s : Str) :
    (∀ g, codingFenceMatch s = some g →
      codeOf (processCodingSolution s) = some (trimChars g)) ∧
    (codingFenceMatch s = none → codeOf (processCodingSolution s) = some s) ∧
    (∀ g, reactFenceMatch s = some g →
      codeOf (processReactSolution s) = some (trimChars g)) ∧
    (reactFenceMatch s = none → codeOf (processReactSolution s) = some []) ∧
    (∀ g, sqlFenceMatch s = some g →
      codeOf (processSQLSolution s) = some (trimChars g)) ∧
    (sqlFenceMatch s = none → codeOf (processSQLSolution s) = some []) := by
  refine ⟨?_, ?_, ?_, ?_, ?_, ?_⟩
  · intro g h
    simp [codeOf, processCodingSolution, h]
  · intro h
    simp [codeOf, processCodingSolution, h]
  · intro g h
    simp [codeOf, processReactSolution, h]
  · intro h
    simp [codeOf, processReactSolution, h]
  · intro g h
    simp [codeOf, processSQLSolution, h]
  · intro h
    simp [codeOf, processSQLSolution, h]

/-- Closed instance of the amended C5: the fenced block is extracted
(trimmed, language tag dropped, prose ignored) in coding mode, and a
fence-less react response yields the empty code field. -/
theorem c5_code_extraction_witness :
    codeOf (processCodingSolution "pre ```py\ncode()\n``` post".data) =
      some (trimChars "code()\n".data) ∧
    codeOf (processReactSolution "A fence-free react answer.".data) = some [] := by
  constructor
  · exact (c5_code_extraction _).1 "code()\n".data (by decide)
  · exact (c5_code_extraction _).2.2.2.1 (by decide)

/-! ## C7 — complexity extraction -/

def c7Example : Str :=
  "Time complexity: O(n), linear scan\nSpace complexity: O(1)\n".data

/-- Claim C7 as stated fails: a response consisting only of
`Time complexity: O(n), linear scan` carries the label, yet the complexity
regex finds no match (its lookahead needs a newline-terminated section), so
the default statement is substituted and the explanatory clause is lost. -/
theorem c7_counterexample :
    complexityMatch "time complexity".data timeLook
      "Time complexity: O(n), linear scan".data = none ∧
    fixComplexity timeDefault
      (complexityMatch "time complexity".data timeLook
        "Time complexity: O(n), linear scan".data) = timeDefault ∧
    containsSub "linear scan".data timeDefault = false := by
  exact ⟨by decide, by decide, by decide⟩

/-- Claim C7 (amended): when the time-complexity label is present and its
section is terminated by a newline leading to the space-complexity label or
the end of the text, the parsed field retains the big-O token (inserting a
hyphen separator when the text has neither a hyphen nor `because`); a
section without a big-O token gets one synthesized in front; an absent or
unterminated label yields the deterministic non-empty default, and likewise
for the space-complexity field. -/
theorem c7_complexity_extraction (s : Str) :
    (complexityMatch "time complexity".data timeLook s = none →
      fixComplexity timeDefault
        (complexityMatch "time complexity".data timeLook s) = timeDefault) ∧
    timeDefault ≠ [] ∧
    (∀ g, complexityMatch "time complexity".data timeLook s = some g →
      (findBigO (trimChars g) = none →
        fixComplexity timeDefault
          (complexityMatch "time complexity".data timeLook s) =
          "O(n) - ".data ++ trimChars g) ∧
      (∀ nota, findBigO (trimChars g) = some nota →
        containsSub nota (fixComplexity timeDefault
          (complexityMatch "time complexity".data timeLook s)) = true) ∧
      (∀ nota, findBigO (trimChars g) = some nota →
        (!(trimChars g).contains '-' &&
          !containsSub "because".data (trimChars g)) = true →
        fixComplexity timeDefault
          (complexityMatch "time complexity".data timeLook s) =
          nota ++ " - ".data ++ trimChars (removeFirst nota (trimChars g)))) ∧
    (complexityMatch "space complexity".data spaceLook s = none →
      fixComplexity spaceDefault
        (complexityMatch "space complexity".data spaceLook s) = spaceDefault) := by
  refine ⟨?_, by decide, ?_, ?_⟩
  · intro h
    rw [h]
    rfl
  · intro g hg
    have hne : g ≠ [] := complexityMatch_ne_nil _ _ s g hg
    rw [hg]
    refine ⟨?_, ?_, ?_⟩
    · intro hfb
      simp [fixComplexity, hne, hfb]
    · intro nota hnota
      unfold fixComplexity
      dsimp only
      rw [if_neg hne, hnota,
        if_neg (by simp : ¬((some nota : Option Str).isNone = true))]
      by_cases hcond : (!(trimChars g).contains '-' &&
          !containsSub "because".data (trimChars g)) = true
      · rw [if_pos hcond]
        show containsSub nota
          (nota ++ " - ".data ++ trimChars (removeFirst nota (trimChars g))) = true
        rw [List.append_assoc]
        exact containsSub_of_startsWithLit _ _ (startsWithLit_append nota _)
      · rw [if_neg hcond]
        exact findBigO_containsSub _ _ hnota
    · intro nota hnota hcond
      unfold fixComplexity
      dsimp only
      rw [if_neg hne, hnota,
        if_neg (by simp : ¬((some nota : Option Str).isNone = true)), if_pos hcond]
  · intro h
    rw [h]
    rfl

/-- Closed instance of the amended C7: with a newline-terminated section the
big-O token and the explanatory clause are both retained. -/
theorem c7_complexity_extraction_witness :
    containsSub "O(n)".data (fixComplexity timeDefault
      (complexityMatch "time complexity".data timeLook c7Example)) = true ∧
    containsSub "linear scan".data (fixComplexity timeDefault
      (complexityMatch "time complexity".data timeLook c7Example)) = true := by
  constructor
  · exact ((c7_complexity_extraction c7Example).2.2.1 "O(n), linear scan".data
      (by decide)).2.1 "O(n)".data (by decide)
  · decide

/-! ## C8 — vision capability check -/

theorem claude_lookup_vision (m : Str) (info : ModelInfo)
    (h : lookupModel CLAUDE_MODELS m = some info) : info.supportsVision = true := by
  unfold CLAUDE_MODELS at h
  simp only [lookupModel] at h
  split at h
  · simp only [Option.some.injEq] at h
    subst h
    rfl
  · split at h
    · simp only [Option.some.injEq] at h
      subst h
      rfl
    · split at h
      · simp only [Option.some.injEq] at h
        subst h
        rfl
      · split at h
        · simp only [Option.some.injEq] at h
          subst h
          rfl
        · simp at h

/-- Claim C8 as stated fails for OpenAI: with an empty key and the
non-vision model, `vision()` fails with the client-not-initialized error,
not the unsupported-capability error (the client check comes first). -/
theorem c8_counterexample :
    supportsVisionO (mkOpenAI [] "gpt-3.5-turbo".data) = false ∧
    visionCallO (mkOpenAI [] "gpt-3.5-turbo".data) [] ⟨none, none, none⟩ =
      AdapterCall.notInitialized ∧
    (AdapterCall.notInitialized : AdapterCall CompletionRequest) ≠
      AdapterCall.unsupported (mkOpenAI [] "gpt-3.5-turbo".data).model := by
  exact ⟨by decide, by decide, by decide⟩

/-- Claim C8 (amended): a `vision()` call on a model without vision support
never reaches a provider request; it fails with the unsupported-capability
error whenever the client is initialized, and with the not-initialized
error when the key is empty.  Every validated Claude model supports vision,
so the Claude capability check never fires on a reachable state. -/
theorem c8_vision_check (a : OpenAIState) (messages : List ModelMessage)
    (options : ModelRequestOptions) (hv : supportsVisionO a = false) :
    ((∀ r, visionCallO a messages options ≠ AdapterCall.request r) ∧
     (a.client ≠ none → visionCallO a messages options =
        AdapterCall.unsupported a.model) ∧
     (a.client = none → visionCallO a messages options =
        AdapterCall.notInitialized)) ∧
    (∀ apiKey model, supportsVisionC (mkClaude apiKey model) = true) ∧
    (∀ (b : ClaudeState) model, supportsVisionC (setModelC b model) = true) ∧
    (∀ (b : ClaudeState) (msgs : List ModelMessage) (o : ModelRequestOptions),
      supportsVisionC b = false →
      ∀ r, visionCallC b msgs o ≠ AdapterCall.request r) := by
  refine ⟨?_, ?_, ?_, ?_⟩
  · obtain ⟨k, m, cl⟩ := a
    cases cl with
    | none =>
      refine ⟨?_, ?_, ?_⟩
      · intro r
        simp [visionCallO]
      · intro hcl
        exact absurd rfl hcl
      · intro _
        rfl
    | some c =>
      refine ⟨?_, ?_, ?_⟩
      · intro r
        simp [visionCallO, hv]
      · intro _
        simp [visionCallO, hv]
      · intro hcl
        exact absurd hcl (by simp)
  · intro apiKey model
    by_cases hm : (lookupModel CLAUDE_MODELS model).isSome
    · cases hl : lookupModel CLAUDE_MODELS model with
      | none => rw [hl] at hm; simp at hm
      | some info =>
        have hvv := claude_lookup_vision model info hl
        simp [supportsVisionC, mkClaude, validateModelC, hm, hl, hvv]
    · simp [supportsVisionC, mkClaude, validateModelC, hm]
      decide
  · intro b model
    by_cases hm : (lookupModel CLAUDE_MODELS model).isSome
    · cases hl : lookupModel CLAUDE_MODELS model with
      | none => rw [hl] at hm; simp at hm
      | some info =>
        have hvv := claude_lookup_vision model info hl
        simp [supportsVisionC, setModelC, validateModelC, hm, hl, hvv]
    · simp [supportsVisionC, setModelC, validateModelC, hm]
      decide
  · intro b msgs o hv r
    simp [visionCallC, hv]

/-- Closed instance of the amended C8: with a key present the non-vision
OpenAI model is rejected with the unsupported-capability error. -/
theorem c8_vision_check_witness :
    visionCallO (mkOpenAI "sk-test".data "gpt-3.5-turbo".data) []
        ⟨none, none, none⟩ =
      AdapterCall.unsupported (mkOpenAI "sk-test".data "gpt-3.5-turbo".data).model ∧
    supportsVisionC (mkClaude "key".data "bogus-model".data) = true := by
  constructor
  · exact ((c8_vision_check (mkOpenAI "sk-test".data "gpt-3.5-turbo".data) []
      ⟨none, none, none⟩ (by decide)).1.2.1 (by decide))
  · exact (c8_vision_check (mkOpenAI [] "gpt-3.5-turbo".data) [] ⟨none, none, none⟩
      (by decide)).2.1 "key".data "bogus-model".data

end PrivateAssistant
